import Mathlib

/-!
Verification of the Transcodarr monitor data collector
(`src/monitor/data_collector.py`) against its specification.

The Python code is shallowly embedded: pure parsing helpers become Lean
functions on `List Char` / `String`, Python `float` arithmetic is modelled
exactly by `ℚ` (the properties proved are robust to rounding), and each
stateful probe becomes an explicit state-passing function whose subprocess
outcomes are supplied by an environment value.
-/

namespace Transcodarr

/-! ## Python string primitives -/

/-- The whitespace characters recognised by Python `str.strip`, `str.split()`
and `str.isspace()` on the ASCII range (the inputs modelled here):
space, tab, newline, carriage return, vertical tab, form feed. -/
def isPySpace (c : Char) : Bool :=
  c = ' ' || c = '\t' || c = '\n' || c = '\r' || c = '\x0b' || c = '\x0c'

/-- Python `str.strip()` on a character list. -/
def pyStripChars (cs : List Char) : List Char :=
  ((cs.dropWhile isPySpace).reverse.dropWhile isPySpace).reverse

/-- Python `str.strip()`. -/
def pyStrip (s : String) : String := ⟨pyStripChars s.data⟩

/-- Python `str.split(sep)` for a one-character separator
(`"a\n\nb".split("\n") = ["a", "", "b"]`, `"".split("\n") = [""]`). -/
def splitOnChar (sep : Char) : List Char → List (List Char)
  | [] => [[]]
  | c :: rest =>
    let r := splitOnChar sep rest
    if c = sep then [] :: r
    else
      match r with
      | [] => [[c]]
      | h :: t => (c :: h) :: t

/-- Helper for `pySplitWs`: accumulates the current word (reversed). -/
def pySplitWsAux : List Char → List Char → List (List Char)
  | [], acc => if acc.isEmpty then [] else [acc.reverse]
  | c :: rest, acc =>
    if isPySpace c then
      if acc.isEmpty then pySplitWsAux rest []
      else acc.reverse :: pySplitWsAux rest []
    else pySplitWsAux rest (c :: acc)

/-- Python `str.split()` with no arguments: split on whitespace runs,
discarding empty fields. -/
def pySplitWs (cs : List Char) : List (List Char) :=
  pySplitWsAux cs []

/-- Python `needle in hay` substring containment. -/
def containsSub (hay needle : List Char) : Bool :=
  match hay with
  | [] => needle.isEmpty
  | c :: rest => needle.isPrefixOf (c :: rest) || containsSub rest needle

/-- Python `needle in hay` on `String`s. -/
def strContains (hay needle : String) : Bool :=
  containsSub hay.data needle.data

/-- Python `str.lower()` on the ASCII range (all keywords searched for by the
collector are ASCII). -/
def pyLower (cs : List Char) : List Char :=
  cs.map Char.toLower

/-- Digit run to numeric value. -/
def digitsToNat (cs : List Char) : Nat :=
  cs.foldl (fun acc c => acc * 10 + (c.toNat - 48)) 0

/-- Helper for `pyParseInt`: Python's digit grammar `digit (('_')? digit)*`
(single underscores allowed between digits). -/
def parseUnderscoreDigitsGo : List Char → Nat → Option Nat
  | [], acc => some acc
  | '_' :: rest, acc =>
    match rest with
    | d :: rest2 =>
      if d.isDigit then parseUnderscoreDigitsGo rest2 (acc * 10 + (d.toNat - 48)) else none
    | [] => none
  | d :: rest, acc =>
    if d.isDigit then parseUnderscoreDigitsGo rest (acc * 10 + (d.toNat - 48)) else none

/-- The digit part of Python `int(...)`. -/
def parseUnderscoreDigits : List Char → Option Nat
  | [] => none
  | c :: rest =>
    if c.isDigit then parseUnderscoreDigitsGo rest (c.toNat - 48) else none

/-- Python `int(token)` on a whitespace-free token: optional sign, then ASCII
digits with single underscores allowed between digits.  (Unicode digits and
surrounding whitespace, which Python also accepts, do not occur in the
whitespace-split tokens this is applied to.) -/
def pyParseInt : List Char → Option Int
  | '-' :: rest => (parseUnderscoreDigits rest).map (fun n => -(n : Int))
  | '+' :: rest => (parseUnderscoreDigits rest).map (fun n => (n : Int))
  | cs => (parseUnderscoreDigits cs).map (fun n => (n : Int))

/-! ## Fleet-status parser (`_parse_rffmpeg_status`) -/

/-- One record of `rffmpeg status` output (the Python code builds a `dict`
with exactly these keys). -/
structure RffmpegHost where
  hostname : String
  servername : String
  id : String
  weight : String
  state : String
  active : String
deriving Repr, DecidableEq

/-- The body of the line loop of `_parse_rffmpeg_status`: the record produced
by one (post-header) line, if any.  Blank lines and continuation lines (first
character whitespace) are skipped; otherwise the line is whitespace-split, at
least 5 fields are required, and fields 3 and 4 must parse as integers
(`int(parts[2])`, `int(parts[3])`); any failure drops the line. -/
def recordOfLine (line : List Char) : Option RffmpegHost :=
  if (pyStripChars line).isEmpty then none
  else
    match line with
    | [] => none
    | c :: _ =>
      if isPySpace c then none
      else
        let parts := pySplitWs line
        if 5 ≤ parts.length then
          match pyParseInt (parts.getD 2 []), pyParseInt (parts.getD 3 []) with
          | some hostId, some w =>
            some { hostname := ⟨parts.getD 0 []⟩
                   servername := ⟨parts.getD 1 []⟩
                   id := toString hostId
                   weight := toString w
                   state := ⟨parts.getD 4 []⟩
                   active := "0" }
          | _, _ => none
        else none

/-- The line loop of `_parse_rffmpeg_status`: accumulates the accepted
records in order, silently dropping rejected lines. -/
def parseStatusLines : List (List Char) → List RffmpegHost
  | [] => []
  | line :: rest =>
    match recordOfLine line with
    | some h => h :: parseStatusLines rest
    | none => parseStatusLines rest

/-- `_parse_rffmpeg_status(output)`: strip, split into lines, discard the
header line, then run the line loop. -/
def parseRffmpegStatus (output : String) : List RffmpegHost :=
  parseStatusLines ((splitOnChar '\n' (pyStripChars output.data)).drop 1)

/-! ## Timestamp extraction and log sorting (`_sort_logs_by_timestamp`)

The regex `\d{4}-\d{2}-\d{2}\s+\d{2}:\d{2}:\d{2}` (optionally surrounded by
square brackets) is embedded as a hand-rolled matcher.  Each `\d{n}` is an
exact-count match; `\s+`, being followed by a digit, can only match the
maximal whitespace run (backtracking into the run would place a whitespace
character where a digit is required), so the matcher is deterministic. -/

/-- Match exactly `n` digits at the head; returns (matched, rest). -/
def matchDigits : Nat → List Char → Option (List Char × List Char)
  | 0, cs => some ([], cs)
  | n + 1, c :: cs =>
    if c.isDigit then (matchDigits n cs).map (fun p => (c :: p.1, p.2)) else none
  | _ + 1, [] => none

/-- Match one literal character at the head. -/
def matchLit (lit : Char) : List Char → Option (List Char × List Char)
  | c :: cs => if c = lit then some ([c], cs) else none
  | [] => none

/-- Match `\s+` (necessarily the maximal whitespace run, see above). -/
def matchWsRun (cs : List Char) : Option (List Char × List Char) :=
  let run := cs.takeWhile isPySpace
  if run.isEmpty then none else some (run, cs.drop run.length)

/-- Match `\d{4}-\d{2}-\d{2}\s+\d{2}:\d{2}:\d{2}` at the head of `cs`;
returns the matched text and the remainder. -/
def matchTsAt (cs : List Char) : Option (List Char × List Char) :=
  (matchDigits 4 cs).bind fun p1 =>
  (matchLit '-' p1.2).bind fun p2 =>
  (matchDigits 2 p2.2).bind fun p3 =>
  (matchLit '-' p3.2).bind fun p4 =>
  (matchDigits 2 p4.2).bind fun p5 =>
  (matchWsRun p5.2).bind fun p6 =>
  (matchDigits 2 p6.2).bind fun p7 =>
  (matchLit ':' p7.2).bind fun p8 =>
  (matchDigits 2 p8.2).bind fun p9 =>
  (matchLit ':' p9.2).bind fun p10 =>
  (matchDigits 2 p10.2).map fun p11 =>
  (p1.1 ++ p2.1 ++ p3.1 ++ p4.1 ++ p5.1 ++ p6.1 ++ p7.1 ++ p8.1 ++ p9.1 ++ p10.1 ++ p11.1,
   p11.2)

/-- Match `\[(\d{4}-\d{2}-\d{2}\s+\d{2}:\d{2}:\d{2})\]` at the head of `cs`;
returns the captured group (without the brackets). -/
def matchBracketTsAt (cs : List Char) : Option (List Char) :=
  (matchLit '[' cs).bind fun p1 =>
  (matchTsAt p1.2).bind fun p2 =>
  (matchLit ']' p2.2).map fun _ => p2.1

/-- `re.search` position scan: try the position matcher `f` at each suffix,
left to right, returning the first (leftmost) hit. -/
def searchAux (f : List Char → Option α) : List Char → Option α
  | [] => f []
  | c :: cs =>
    match f (c :: cs) with
    | some r => some r
    | none => searchAux f cs

/-- The sort key of `_sort_logs_by_timestamp.extract_timestamp`: the first
bracketed timestamp, else the first bare timestamp, else the empty string. -/
def extractTimestampL (line : List Char) : List Char :=
  match searchAux matchBracketTsAt line with
  | some g => g
  | none =>
    match searchAux (fun cs => (matchTsAt cs).map Prod.fst) line with
    | some g => g
    | none => []

/-- `extract_timestamp` on a `String`. -/
def extractTimestamp (line : String) : String := ⟨extractTimestampL line.data⟩

/-- Python string `<=`: lexicographic comparison by code point. -/
def charListLe : List Char → List Char → Bool
  | [], _ => true
  | _ :: _, [] => false
  | a :: as, b :: bs =>
    if a.toNat < b.toNat then true
    else if b.toNat < a.toNat then false
    else charListLe as bs

/-- Key comparison used by `sorted(logs, key=extract_timestamp)`. -/
def logLe (a b : String) : Bool :=
  charListLe (extractTimestampL a.data) (extractTimestampL b.data)

/-- `_sort_logs_by_timestamp(logs)`: Python's `sorted` is a stable sort by
the extracted key; it is modelled by the stable `List.mergeSort`.  (The
`try/except` around `sorted` in the source is dead: sorting by string keys
cannot raise.) -/
def sortLogsByTimestamp (logs : List String) : List String :=
  logs.mergeSort logLe

/-! ## History derivation (`_parse_history_from_logs`) -/

/-- Timestamps as parsed by `datetime.strptime`. -/
structure PyDateTime where
  year : Nat
  month : Nat
  day : Nat
  hour : Nat
  minute : Nat
  second : Nat
deriving Repr, DecidableEq

def isLeapYear (y : Nat) : Bool :=
  (y % 4 = 0 && y % 100 ≠ 0) || y % 400 = 0

def daysInMonth (y m : Nat) : Nat :=
  if m = 2 then (if isLeapYear y then 29 else 28)
  else if m = 4 || m = 6 || m = 9 || m = 11 then 30
  else 31

/-- `datetime.strptime(s, "%Y-%m-%d %H:%M:%S")`: the whole string must be
consumed (a space in the format matches a whitespace run, as in CPython's
`_strptime`), and the fields must form a valid datetime — year ≥ 1, valid
month/day (leap years included), `hh:mm:ss` in range — else `ValueError`
(modelled as `none`). -/
def pyStrptimeYmdHms (cs : List Char) : Option PyDateTime :=
  (matchDigits 4 cs).bind fun p1 =>
  (matchLit '-' p1.2).bind fun p2 =>
  (matchDigits 2 p2.2).bind fun p3 =>
  (matchLit '-' p3.2).bind fun p4 =>
  (matchDigits 2 p4.2).bind fun p5 =>
  (matchWsRun p5.2).bind fun p6 =>
  (matchDigits 2 p6.2).bind fun p7 =>
  (matchLit ':' p7.2).bind fun p8 =>
  (matchDigits 2 p8.2).bind fun p9 =>
  (matchLit ':' p9.2).bind fun p10 =>
  (matchDigits 2 p10.2).bind fun p11 =>
  if p11.2 ≠ [] then none
  else
    let y := digitsToNat p1.1
    let mo := digitsToNat p3.1
    let d := digitsToNat p5.1
    let h := digitsToNat p7.1
    let mi := digitsToNat p9.1
    let s := digitsToNat p11.1
    if 1 ≤ y ∧ 1 ≤ mo ∧ mo ≤ 12 ∧ 1 ≤ d ∧ d ≤ daysInMonth y mo
        ∧ h ≤ 23 ∧ mi ≤ 59 ∧ s ≤ 59
    then some ⟨y, mo, d, h, mi, s⟩
    else none

def mediaExts : List (List Char) :=
  ["mkv".data, "mp4".data, "avi".data, "mov".data, "m4v".data]

/-- Case-insensitive test that `cs` is one of the five media extensions. -/
def isMediaExt (cs : List Char) : Bool :=
  mediaExts.any (fun e => cs.map Char.toLower == e)

def isFileChar (c : Char) : Bool :=
  !isPySpace c && c ≠ '/'

/-- Greedy backtracking for `[^\s/]+\.(mkv|mp4|avi|mov|m4v)` inside the
maximal `[^\s/]` run starting at the match position: the longest stem
(length ≥ 1) followed by a dot and a media extension wins; the second
argument is the stem length currently tried. -/
def fileMatchGo (run : List Char) : Nat → Option (List Char)
  | 0 => none
  | k + 1 =>
    if k + 5 ≤ run.length && run.getD (k + 1) '/' = '.'
        && isMediaExt ((run.drop (k + 2)).take 3)
    then some (run.take (k + 5))
    else fileMatchGo run k

/-- Attempt `([^\s/]+\.(mkv|mp4|avi|mov|m4v))` (with `re.I`) at this
position. -/
def matchFileAt (cs : List Char) : Option (List Char) :=
  let run := cs.takeWhile isFileChar
  fileMatchGo run run.length

/-- A `TranscodeHistoryItem`. -/
structure HistoryItem where
  filename : String
  timestamp : PyDateTime
  duration : String
  success : Bool
  error_message : String
deriving Repr, DecidableEq

/-- The first bare `YYYY-MM-DD HH:MM:SS` match in a line (the regex shared by
`_parse_history_from_logs` and the bracket-less branch of
`extract_timestamp`). -/
def findBareTs (line : List Char) : Option (List Char) :=
  searchAux (fun cs => (matchTsAt cs).map Prod.fst) line

/-- Does the line contain `completed` or `finished` (case-insensitive)? -/
def hasCompletionKeyword (line : List Char) : Bool :=
  containsSub (pyLower line) "completed".data
    || containsSub (pyLower line) "finished".data

/-- Loop body of `_parse_history_from_logs` for one line.  When the line has
a completion keyword but no timestamp match, the item is stamped with
`datetime.now()`, passed here explicitly as `now`; a timestamp text that
matches the pattern but fails `strptime` validation raises `ValueError`,
which the `except` clause turns into skipping the whole line. -/
def historyOfLine (now : PyDateTime) (line : List Char) : Option HistoryItem :=
  if hasCompletionKeyword line then
    let ts : Option PyDateTime :=
      match findBareTs line with
      | some g => pyStrptimeYmdHms g
      | none => some now
    match ts with
    | none => none
    | some dt =>
      some { filename := match searchAux matchFileAt line with
                         | some f => ⟨f⟩
                         | none => "Unknown"
             timestamp := dt
             duration := ""
             success := !containsSub (pyLower line) "error".data
                          && !containsSub (pyLower line) "failed".data
             error_message := "" }
  else none

/-- `_parse_history_from_logs`: the full derived history list (the
function's return value). -/
def parseHistoryFromLogs (now : PyDateTime) (logs : List String) : List HistoryItem :=
  logs.filterMap (fun l => historyOfLine now l.data)

/-- The stored result `self._data.history = history[-20:]`. -/
def storedHistory (now : PyDateTime) (logs : List String) : List HistoryItem :=
  let h := parseHistoryFromLogs now logs
  h.drop (h.length - 20)

/-! ## Node statistics: memory section (`_parse_memory_stats`)

Python `float` arithmetic is modelled by exact rational arithmetic; the
properties proved (signs, the `>100` overshoot, the division guard) are
robust to floating-point rounding. -/

/-- `NodeStats`. -/
structure NodeStatsM where
  hostname : String
  ip : String
  cpu_percent : ℚ
  memory_used_gb : ℚ
  memory_total_gb : ℚ
  memory_percent : ℚ
  network_down_mbps : ℚ
  network_up_mbps : ℚ
  transcodes_today : Nat
  state : String
  weight : Int
  is_online : Bool
  error : String
deriving Repr, DecidableEq

/-- A `NodeStats(...)` with the dataclass defaults. -/
def freshNodeStats : NodeStatsM :=
  { hostname := "", ip := "", cpu_percent := 0, memory_used_gb := 0,
    memory_total_gb := 0, memory_percent := 0, network_down_mbps := 0,
    network_up_mbps := 0, transcodes_today := 0, state := "unknown",
    weight := 1, is_online := false, error := "" }

/-- Match `hw\.memsize:\s*(\d+)` at this position.  (`\s*` is followed by
`\d+`, so backtracking into the whitespace run cannot help: the maximal run
is forced, then a non-empty maximal digit run is the group.) -/
def matchMemsizeAt (cs : List Char) : Option Nat :=
  if "hw.memsize:".data.isPrefixOf cs then
    let rest := (cs.drop 11).dropWhile isPySpace
    let digits := rest.takeWhile Char.isDigit
    if digits.isEmpty then none else some (digitsToNat digits)
  else none

/-- `re.search(r"(\d+)", line)`: the first (leftmost, maximal) digit run. -/
def firstDigitRun (line : List Char) : Option Nat :=
  searchAux (fun cs =>
    let d := cs.takeWhile Char.isDigit
    if d.isEmpty then none else some (digitsToNat d)) line

/-- `vm_stat` page size hard-coded in the source (Apple Silicon default). -/
def pageSize : Nat := 16384

/-- First paragraph of `_parse_memory_stats`: total memory from
`hw.memsize`, in GB. -/
def memTotalStep (content : List Char) (node : NodeStatsM) : NodeStatsM :=
  match searchAux matchMemsizeAt content with
  | some n => { node with memory_total_gb := (n : ℚ) / ((1024 : ℚ) ^ 3) }
  | none => node

/-- The `Pages active` / `Pages wired down` / `Pages occupied by compressor`
counters of `_parse_memory_stats` (an `if/elif` chain per line; a later
matching line overwrites an earlier one). -/
def vmPageCounts (content : List Char) : Nat × Nat × Nat :=
  (splitOnChar '\n' content).foldl
    (fun (acc : Nat × Nat × Nat) line =>
      if containsSub line "Pages active:".data then
        match firstDigitRun line with
        | some n => (n, acc.2.1, acc.2.2)
        | none => acc
      else if containsSub line "Pages wired down:".data then
        match firstDigitRun line with
        | some n => (acc.1, n, acc.2.2)
        | none => acc
      else if containsSub line "Pages occupied by compressor:".data then
        match firstDigitRun line with
        | some n => (acc.1, acc.2.1, n)
        | none => acc
      else acc)
    (0, 0, 0)

/-- Second paragraph of `_parse_memory_stats`:
`used = pages × page_size` in GB. -/
def memUsedStep (content : List Char) (node : NodeStatsM) : NodeStatsM :=
  let counts := vmPageCounts content
  let usedPages := counts.1 + counts.2.1 + counts.2.2
  { node with memory_used_gb := ((usedPages * pageSize : Nat) : ℚ) / ((1024 : ℚ) ^ 3) }

/-- Final paragraph of `_parse_memory_stats`: the percentage, computed only
under the division-by-zero guard `memory_total_gb > 0`. -/
def memPercentStep (node : NodeStatsM) : NodeStatsM :=
  if node.memory_total_gb > 0 then
    { node with memory_percent := node.memory_used_gb / node.memory_total_gb * 100 }
  else node

/-- `_parse_memory_stats(content, node)`. -/
def parseMemoryStats (content : List Char) (node : NodeStatsM) : NodeStatsM :=
  memPercentStep (memUsedStep content (memTotalStep content node))

/-! ## Connection status and the connectivity probes -/

/-- `ConnectionStatus`. -/
inductive ConnectionStatus
  | connected
  | disconnected
  | checking
  | error
deriving Repr, DecidableEq

/-- `SystemStatus`. -/
structure SystemStatus where
  ssh_status : ConnectionStatus
  nfs_media_status : ConnectionStatus
  nfs_cache_status : ConnectionStatus
  jellyfin_status : ConnectionStatus
  ssh_error : String
  nfs_media_error : String
  nfs_cache_error : String
  jellyfin_error : String
  is_synology : Bool
deriving Repr, DecidableEq

/-- A `SystemStatus()` with the dataclass defaults. -/
def initialSystemStatus : SystemStatus :=
  { ssh_status := .checking, nfs_media_status := .checking,
    nfs_cache_status := .checking, jellyfin_status := .checking,
    ssh_error := "", nfs_media_error := "", nfs_cache_error := "",
    jellyfin_error := "", is_synology := false }

/-- The configuration fields the collector reads. -/
structure ConfigM where
  is_synology : Bool
  nas_ip : String
  nas_user : String
  ssh_timeout : Nat
  jellyfin_api_key : String
deriving Repr, DecidableEq

/-- Outcome of `await asyncio.wait_for(proc.communicate(), timeout=...)`:
the configured timeout fired (`asyncio.TimeoutError`), some other exception
was raised (with its `str(e)` text), or the process completed with a return
code, stdout and stderr. -/
inductive ProcResult
  | timeout
  | exn (msg : String)
  | done (rc : Int) (stdout stderr : String)
deriving Repr, DecidableEq

/-- Outcome of a subprocess awaited without `wait_for` (no timeout path). -/
inductive CallResult
  | exn (msg : String)
  | done (rc : Int) (stdout stderr : String)
deriving Repr, DecidableEq

/-- `check_ssh_connection`: returns the updated status record and the boolean
result.  The status is first reset to `CHECKING` (start of a new probe), then
classified; a timeout is `DISCONNECTED` with the exact text
`"Connection timeout"`; a completed probe succeeds only with return code 0
and `"ok"` in stdout; other failures are `ERROR` with a message categorised
from stderr substrings (generic messages truncated to 100 characters). -/
def checkSshConnection (cfg : ConfigM) (res : ProcResult) (st : SystemStatus) :
    SystemStatus × Bool :=
  let st := { st with ssh_status := .checking }
  match res with
  | .timeout =>
    ({ st with ssh_status := .disconnected, ssh_error := "Connection timeout" }, false)
  | .exn msg =>
    ({ st with ssh_status := .error, ssh_error := ⟨msg.data.take 100⟩ }, false)
  | .done rc out err =>
    if rc = 0 && containsSub out.data "ok".data then
      ({ st with ssh_status := .connected, ssh_error := "" }, true)
    else
      let e := pyStripChars err.data
      let emsg : String :=
        if containsSub e "Permission denied".data || containsSub (pyLower e) "password".data
        then "Auth failed for " ++ cfg.nas_user ++ "@" ++ cfg.nas_ip
        else if containsSub e "Connection refused".data
        then "SSH refused at " ++ cfg.nas_ip ++ ":22"
        else if containsSub e "No route to host".data
            || containsSub e "Host unreachable".data
        then "Cannot reach " ++ cfg.nas_ip
        else ⟨e.take 100⟩
      ({ st with ssh_status := .error, ssh_error := emsg }, false)

/-- `check_nfs_mounts` (remote mode): inspect the `mount` output for the
media and cache path fragments; on exception both channels become `ERROR`
with the truncated exception text. -/
def checkNfsMounts (res : CallResult) (st : SystemStatus) : SystemStatus :=
  match res with
  | .exn msg =>
    { st with nfs_media_status := .error, nfs_cache_status := .error,
              nfs_media_error := ⟨msg.data.take 50⟩,
              nfs_cache_error := ⟨msg.data.take 50⟩ }
  | .done _ out _ =>
    let mo := out.data
    let st1 :=
      if containsSub mo "/data/media".data then
        { st with nfs_media_status := .connected }
      else
        { st with nfs_media_status := .disconnected, nfs_media_error := "Not mounted" }
    if containsSub (pyLower mo) "jellyfin".data && containsSub (pyLower mo) "cache".data then
      { st1 with nfs_cache_status := .connected }
    else if containsSub mo "/config/cache".data then
      { st1 with nfs_cache_status := .connected }
    else
      { st1 with nfs_cache_status := .disconnected, nfs_cache_error := "Not mounted" }

/-- `check_local_paths` (Synology mode): existence checks executed inside the
container; each path check looks for `"ok"` in stdout, and any exception
(including the 5-second timeout) yields `ERROR` / `"Check failed"`. -/
def checkLocalPaths (resMedia resCache : ProcResult) (st : SystemStatus) : SystemStatus :=
  let st1 :=
    match resMedia with
    | .done _ out _ =>
      if containsSub out.data "ok".data then
        { st with nfs_media_status := .connected }
      else
        { st with nfs_media_status := .disconnected,
                  nfs_media_error := "/data/media not in container" }
    | _ => { st with nfs_media_status := .error, nfs_media_error := "Check failed" }
  match resCache with
  | .done _ out _ =>
    if containsSub out.data "ok".data then
      { st1 with nfs_cache_status := .connected }
    else
      { st1 with nfs_cache_status := .disconnected,
                 nfs_cache_error := "/config/cache not in container" }
  | _ => { st1 with nfs_cache_status := .error, nfs_cache_error := "Check failed" }

/-- Outcome of the optional Jellyfin API request. -/
inductive ApiResult
  | importErr
  | exn (msg : String)
  | resp (code : Nat)
deriving Repr, DecidableEq

/-- `check_jellyfin_api`. -/
def checkJellyfinApi (cfg : ConfigM) (res : ApiResult) (st : SystemStatus) : SystemStatus :=
  if cfg.jellyfin_api_key = "" then
    { st with jellyfin_status := .disconnected, jellyfin_error := "No API key" }
  else
    match res with
    | .resp code =>
      if code = 200 then { st with jellyfin_status := .connected }
      else { st with jellyfin_status := .error, jellyfin_error := "HTTP " ++ toString code }
    | .importErr =>
      { st with jellyfin_status := .disconnected, jellyfin_error := "aiohttp not installed" }
    | .exn msg =>
      { st with jellyfin_status := .error, jellyfin_error := ⟨msg.data.take 50⟩ }

/-! ## Transcode jobs and the ffmpeg command-line parser -/

/-- `TranscodeJob`. -/
structure TranscodeJobM where
  filename : String
  node_ip : String
  pid : Int
  input_codec : String
  output_codec : String
  input_resolution : String
  output_resolution : String
  fps : ℚ
  speed : String
  progress : ℚ
  eta : String
  bitrate : String
  audio_codec : String
  started_at : Option PyDateTime
  cpu_percent : ℚ
deriving Repr, DecidableEq

/-- Lazy `.+?\.(mkv|mp4|avi|mov|m4v)` (with `re.I`): grow the stem `x` one
(non-newline) character at a time, succeeding at the first dot followed by a
media extension. -/
def lazyDotExt (x cs : List Char) : Option (List Char) :=
  match cs with
  | [] => none
  | c :: rest =>
    if x ≠ [] ∧ c = '.' ∧ isMediaExt (rest.take 3) then some (x ++ c :: rest.take 3)
    else if c = '\n' then none
    else lazyDotExt (x ++ [c]) rest

/-- Attempt `-i\s+(?:file:)?(.+?\.(?:mkv|mp4|avi|mov|m4v))` (with `re.I`) at
this position.  The optional greedy `file:` falls back to being part of the
stem when consuming it prevents any match. -/
def matchInputAt (cs : List Char) : Option (List Char) :=
  if (cs.take 2).map Char.toLower = "-i".data then
    if (cs.drop 2).takeWhile isPySpace = [] then none
    else
      let r2 := (cs.drop 2).dropWhile isPySpace
      match (if (r2.take 5).map Char.toLower = "file:".data
             then lazyDotExt [] (r2.drop 5) else none) with
      | some g => some g
      | none => lazyDotExt [] r2
  else none

/-- The `group(1)` of the first `-i ...` input-file match in the command. -/
def findInputFile (cs : List Char) : Option (List Char) :=
  searchAux matchInputAt cs

/-- Match `scale=(\d+):(\d+)` at this position (each `\d+` is a maximal digit
run, forced by the following literal); the raw digit groups are returned. -/
def matchScaleAt (cs : List Char) : Option (List Char × List Char) :=
  if "scale=".data.isPrefixOf cs then
    let d1 := (cs.drop 6).takeWhile Char.isDigit
    if d1.isEmpty then none
    else
      match (cs.drop 6).drop d1.length with
      | ':' :: r2 =>
        let d2 := r2.takeWhile Char.isDigit
        if d2.isEmpty then none else some (d1, d2)
      | _ => none
  else none

def findScale (cs : List Char) : Option (List Char × List Char) :=
  searchAux matchScaleAt cs

/-- Match `-maxrate\s+(\d+)` at this position. -/
def matchMaxrateAt (cs : List Char) : Option Nat :=
  if "-maxrate".data.isPrefixOf cs then
    if (cs.drop 8).takeWhile isPySpace = [] then none
    else
      let d := ((cs.drop 8).dropWhile isPySpace).takeWhile Char.isDigit
      if d.isEmpty then none else some (digitsToNat d)
  else none

def findMaxrate (cs : List Char) : Option Nat :=
  searchAux matchMaxrateAt cs

/-- `_parse_ffmpeg_command(command, node_ip, pid, cpu_percent)`: filename
from the `-i` argument (last path component, truncated to 60 characters),
codecs from a fixed lexicon of substrings, output resolution from the first
`scale=W:H` filter, and estimated input resolution / bitrate from the first
`-maxrate` argument, tier-bucketed. -/
def parseFfmpegCommand (command node_ip : String) (pid : Int) (cpu_percent : ℚ) :
    TranscodeJobM :=
  let cs := command.data
  let filename : String :=
    match findInputFile cs with
    | some g => ⟨(splitOnChar '/' g).getLastD []⟩
    | none => "Unknown"
  let output_codec : String :=
    if containsSub cs "h264_videotoolbox".data then "H.264 (HW)"
    else if containsSub cs "hevc_videotoolbox".data then "HEVC (HW)"
    else if containsSub cs "libx264".data then "H.264 (CPU)"
    else if containsSub cs "libx265".data then "HEVC (CPU)"
    else if containsSub cs "-c:v copy".data then "Copy"
    else ""
  let audio_codec : String :=
    if containsSub cs "aac_at".data then "AAC"
    else if containsSub cs "-c:a copy".data then "Copy"
    else ""
  let output_resolution : String :=
    match findScale cs with
    | some (w, h) => (⟨w⟩ : String) ++ "x" ++ (⟨h⟩ : String)
    | none => ""
  let input_resolution : String :=
    match findMaxrate cs with
    | some maxrate =>
      if maxrate > 15000000 then "4K"
      else if maxrate > 8000000 then "1080p"
      else if maxrate > 4000000 then "720p"
      else "SD"
    | none => ""
  let bitrate : String :=
    match findMaxrate cs with
    | some maxrate => toString (maxrate / 1000) ++ "k"
    | none => ""
  { filename := ⟨filename.data.take 60⟩
    node_ip := node_ip
    pid := pid
    input_codec := ""
    output_codec := output_codec
    input_resolution := input_resolution
    output_resolution := output_resolution
    fps := 0
    speed := ""
    progress := 0
    eta := ""
    bitrate := bitrate
    audio_codec := audio_codec
    started_at := none
    cpu_percent := cpu_percent }

/-- Python `line.split(None, maxsplit)`: at most `maxsplit` splits on
whitespace runs; the remainder (leading whitespace stripped) is the final
field, kept verbatim. -/
def pySplitWsMax : Nat → List Char → List (List Char)
  | 0, cs =>
    let cs1 := cs.dropWhile isPySpace
    if cs1.isEmpty then [] else [cs1]
  | n + 1, cs =>
    let cs1 := cs.dropWhile isPySpace
    if cs1.isEmpty then []
    else
      let tok := cs1.takeWhile (fun c => !isPySpace c)
      tok :: pySplitWsMax n (cs1.drop tok.length)

/-- Python `float(token)` restricted to the forms occurring in `ps aux` CPU
columns: optional sign and digits with an optional fractional part.  (Exotic
float syntax — exponents, `inf`, `nan`, underscores — is not modelled; an
unparsable token raises `ValueError`, dropping the line.) -/
def pyParseSimpleFloat (cs : List Char) : Option ℚ :=
  match cs with
  | '-' :: rest => (pyParseSimpleFloatCore rest).map Neg.neg
  | '+' :: rest => pyParseSimpleFloatCore rest
  | _ => pyParseSimpleFloatCore cs
where
  pyParseSimpleFloatCore (t : List Char) : Option ℚ :=
    let d1 := t.takeWhile Char.isDigit
    match t.drop d1.length with
    | [] => if d1.isEmpty then none else some (digitsToNat d1 : ℚ)
    | '.' :: frac =>
      if frac.all Char.isDigit && !(d1.isEmpty && frac.isEmpty) then
        some ((digitsToNat d1 : ℚ) + (digitsToNat frac : ℚ) / (10 : ℚ) ^ frac.length)
      else none
    | _ => none

/-- One line of the `ps aux` loop in `_parse_ffmpeg_processes`: skip empty
and `grep` lines, require 11 fields from `split(None, 10)`, an integer PID
and a float CPU%, then parse the command field. -/
def jobOfPsLine (node_ip : String) (line : List Char) : Option TranscodeJobM :=
  if line.isEmpty || containsSub line "grep".data then none
  else
    let parts := pySplitWsMax 10 line
    if parts.length < 11 then none
    else
      match pyParseInt (parts.getD 1 []), pyParseSimpleFloat (parts.getD 2 []) with
      | some pid, some cpu =>
        some (parseFfmpegCommand ⟨parts.getD 10 []⟩ node_ip pid cpu)
      | _, _ => none

/-- `_parse_ffmpeg_processes(ps_output, node_ip)`. -/
def parseFfmpegProcesses (ps_output : List Char) (node_ip : String) :
    List TranscodeJobM :=
  (splitOnChar '\n' (pyStripChars ps_output)).filterMap (jobOfPsLine node_ip)

/-! ## Node statistics: section splitting and the per-node session -/

/-- `\w` on the ASCII range. -/
def isWordChar (c : Char) : Bool :=
  c.isAlphanum || c = '_'

/-- Greedy stem search for `STATS_(\w+)_START` after the literal `STATS_`:
the longest word-character stem followed immediately by the literal `_START`
wins; `k+1` is the stem length currently tried. -/
def markerGo (run : List Char) : Nat → Option Nat
  | 0 => none
  | k + 1 =>
    if k + 7 ≤ run.length && (run.drop (k + 1)).take 6 = "_START".data
    then some (k + 1)
    else markerGo run k

/-- Match `STATS_(\w+)_START` at this position: the captured group and the
remainder after the match. -/
def matchMarkerAt (cs : List Char) : Option (List Char × List Char) :=
  if "STATS_".data.isPrefixOf cs then
    match markerGo ((cs.drop 6).takeWhile isWordChar)
        ((cs.drop 6).takeWhile isWordChar).length with
    | some k =>
      some (((cs.drop 6).takeWhile isWordChar).take k, (cs.drop 6).drop (k + 6))
    | none => none
  else none

/-- The scan of `re.split(r'STATS_(\w+)_START', output)`: `acc` holds the
current inter-marker segment (reversed). -/
def splitMarkersGo (acc : List Char) (cs : List Char) : List (List Char) :=
  match cs with
  | [] => [acc.reverse]
  | c :: rest =>
    match h : matchMarkerAt (c :: rest) with
    | some p => acc.reverse :: p.1 :: splitMarkersGo [] p.2
    | none => splitMarkersGo (c :: acc) rest
termination_by cs.length
decreasing_by
  · simp only [matchMarkerAt] at h
    split at h
    · split at h
      · simp only [Option.some.injEq] at h
        subst h
        simp only [List.length_drop, List.length_cons]
        omega
      · exact absurd h (by simp)
    · exact absurd h (by simp)
  · simp only [List.length_cons]
    omega

/-- `re.split(r'STATS_(\w+)_START', output)`: alternating inter-marker text
and captured marker names. -/
def splitMarkers (cs : List Char) : List (List Char) :=
  splitMarkersGo [] cs

/-- Match `(\d+\.?\d*)` followed by the literal `lit` at this position,
returning the number (as an exact rational) and the remainder after `lit`.
The greedy digit runs are forced by the following literals (`lit` here is
`"% user"` or `"% sys"`, which cannot begin with a digit or a dot), so no
other backtracking alternative can succeed. -/
def matchNumThen (lit : List Char) (cs : List Char) : Option (ℚ × List Char) :=
  let d1 := cs.takeWhile Char.isDigit
  if d1.isEmpty then none
  else
    match cs.drop d1.length with
    | '.' :: r2 =>
      let d2 := r2.takeWhile Char.isDigit
      let r3 := r2.drop d2.length
      if lit.isPrefixOf r3 then
        some ((digitsToNat d1 : ℚ) + (digitsToNat d2 : ℚ) / (10 : ℚ) ^ d2.length,
              r3.drop lit.length)
      else none
    | r2 =>
      if lit.isPrefixOf r2 then some ((digitsToNat d1 : ℚ), r2.drop lit.length)
      else none

/-- Lazy `.*?` scan limited to the current line (regex `.` does not match a
newline): try `f` at each position, stopping at a newline. -/
def searchBeforeNewline (f : List Char → Option α) : List Char → Option α
  | [] => f []
  | c :: cs =>
    match f (c :: cs) with
    | some r => some r
    | none => if c = '\n' then none else searchBeforeNewline f cs

/-- `re.search(r"(\d+\.?\d*)% user.*?(\d+\.?\d*)% sys", content)`, combined
into the `user + sys` sum that `_parse_mac_stats` assigns. -/
def findCpuUserSys (content : List Char) : Option ℚ :=
  searchAux (fun cs =>
    (matchNumThen "% user".data cs).bind fun p =>
      (searchBeforeNewline (fun cs2 => (matchNumThen "% sys".data cs2).map Prod.fst) p.2).map
        (fun s => p.1 + s)) content

/-- The `CPU` branch of `_parse_mac_stats`. -/
def parseCpuSection (content : List Char) (node : NodeStatsM) : NodeStatsM :=
  match findCpuUserSys content with
  | some q => { node with cpu_percent := q }
  | none => node

/-- The `for i, section in enumerate(sections)` loop of `_parse_mac_stats`:
when a stripped element equals a marker name and a following element exists,
that following element is parsed as the corresponding section; the `FFMPEG`
branch also records the job count and appends the jobs to the collector's
`active_transcodes` (returned here as the second component). -/
def macStatsLoop (node_ip : String) :
    List (List Char) → NodeStatsM × List TranscodeJobM → NodeStatsM × List TranscodeJobM
  | [], acc => acc
  | s :: rest, acc =>
    let stripped := pyStripChars s
    let acc2 :=
      if stripped = "CPU".data then
        match rest.head? with
        | some content => (parseCpuSection content acc.1, acc.2)
        | none => acc
      else if stripped = "MEM".data then
        match rest.head? with
        | some content => (parseMemoryStats content acc.1, acc.2)
        | none => acc
      else if stripped = "FFMPEG".data then
        match rest.head? with
        | some content =>
          let jobs := parseFfmpegProcesses content node_ip
          ({ acc.1 with transcodes_today := jobs.length }, acc.2 ++ jobs)
        | none => acc
      else acc
    macStatsLoop node_ip rest acc2

/-- `_parse_mac_stats(output, node)`: the updated node plus the jobs that the
call appends to the collector's `active_transcodes`. -/
def parseMacStats (output : List Char) (node : NodeStatsM) :
    NodeStatsM × List TranscodeJobM :=
  macStatsLoop node.ip (splitMarkers output) (node, [])

/-- `_get_single_node_stats(ip, mac_user, state, weight)` with the session
outcome supplied by the environment.  The node is online iff the session
completed and its stdout contains `STATS_CPU_START` — the exit code is never
consulted; otherwise the node is offline with a best-effort categorised error
(generic stderr truncated to 40, exception text to 50 characters).  Every
failure maps to a value: nothing is raised past this function. -/
def getSingleNodeStats (ip mac_user state : String) (weight : Int)
    (res : ProcResult) : NodeStatsM × List TranscodeJobM :=
  let node : NodeStatsM :=
    { freshNodeStats with hostname := mac_user ++ "@" ++ ip, ip := ip,
                          state := state, weight := weight }
  match res with
  | .timeout => ({ node with is_online := false, error := "Timeout" }, [])
  | .exn msg => ({ node with is_online := false, error := ⟨msg.data.take 50⟩ }, [])
  | .done _ out err =>
    if containsSub out.data "STATS_CPU_START".data then
      parseMacStats out.data { node with is_online := true }
    else
      let e := pyStripChars err.data
      let emsg : String :=
        if containsSub e "Permission denied".data then "SSH key rejected"
        else if containsSub e "Connection refused".data then "SSH refused"
        else if containsSub e "No route".data || containsSub (pyLower e) "unreachable".data
        then "Host unreachable"
        else if e ≠ [] then ⟨e.take 40⟩
        else "No stats data"
      ({ node with is_online := false, error := emsg }, [])

/-! ## The collection cycle (`collect_all`) -/

/-- `CollectedData`.  (`rffmpeg_hosts` holds the parsed fleet records.) -/
structure CollectedDataM where
  status : SystemStatus
  active_transcodes : List TranscodeJobM
  history : List HistoryItem
  logs : List String
  rffmpeg_hosts : List RffmpegHost
  node_stats : List NodeStatsM
  last_updated : Option PyDateTime

/-- The fresh `CollectedData()` built by `DataCollector.__init__`. -/
def initialCollectedData : CollectedDataM :=
  { status := initialSystemStatus, active_transcodes := [], history := [],
    logs := [], rffmpeg_hosts := [], node_stats := [], last_updated := none }

/-- All external-world outcomes one collection cycle can observe: one field
per subprocess call the cycle may make; `nodeRes` maps a node address to its
diagnostic-session outcome, `macUser` is `_get_mac_user()`, `now` is the
wall clock. -/
structure CycleEnv where
  sshRes : ProcResult
  mountRes : CallResult
  localMediaRes : ProcResult
  localCacheRes : ProcResult
  pgrepRes : CallResult
  rffmpegStatusRes : ProcResult
  rffmpegLogRes : ProcResult
  lbLogRes : ProcResult
  nodeRes : String → ProcResult
  macUser : String
  now : PyDateTime

/-- The quote set `["\']` of `_parse_ffmpeg_process` (double quote and
apostrophe). -/
def isQuoteChar (c : Char) : Bool :=
  c = '"' || c = Char.ofNat 39

/-- Attempt `-i\s+["\']?([^"\']+)["\']?` at this position (no `re.I` here):
after `-i` and whitespace, an optional opening quote, then a maximal
non-quote run — which, being greedy, may swallow spaces and the rest of the
command line.  When consuming the optional quote leaves nothing for the
group, no backtracking alternative can succeed either (the next character is
still a quote). -/
def matchSimpleInputAt (cs : List Char) : Option (List Char) :=
  if "-i".data.isPrefixOf cs then
    if (cs.drop 2).takeWhile isPySpace = [] then none
    else
      let r2 := (cs.drop 2).dropWhile isPySpace
      let r3 :=
        match r2 with
        | c :: rest => if isQuoteChar c then rest else r2
        | [] => r2
      let grp := r3.takeWhile (fun c => !isQuoteChar c)
      if grp.isEmpty then none else some grp
  else none

/-- `_parse_ffmpeg_process(line)` (the simple per-process parser used by
`get_active_transcodes`): filename from a `-i` argument, codec from the
VideoToolbox / libx lexicon.  Each path is total, so the surrounding
`try/except` never fires and a job is always returned. -/
def parseFfmpegProcessLine (line : List Char) : Option TranscodeJobM :=
  let filename : String :=
    match searchAux matchSimpleInputAt line with
    | some g => ⟨(splitOnChar '/' g).getLastD []⟩
    | none => "Unknown"
  let video_codec : String :=
    if containsSub line "h264_videotoolbox".data then "H.264 (VideoToolbox)"
    else if containsSub line "hevc_videotoolbox".data then "HEVC (VideoToolbox)"
    else if containsSub line "libx264".data then "H.264 (CPU)"
    else if containsSub line "libx265".data then "HEVC (CPU)"
    else ""
  some { filename := filename, node_ip := "", pid := 0, input_codec := "",
         output_codec := video_codec, input_resolution := "",
         output_resolution := "", fps := 0, speed := "", progress := 0,
         eta := "", bitrate := "", audio_codec := "", started_at := none,
         cpu_percent := 0 }

/-- `_get_local_ffmpeg_processes` (remote/Mac mode): `pgrep -lf ffmpeg`; a
non-zero return code stores an empty job list; an exception returns without
touching the stored list. -/
def getLocalFfmpegProcesses (env : CycleEnv) (d : CollectedDataM) : CollectedDataM :=
  match env.pgrepRes with
  | .exn _ => d
  | .done rc out _ =>
    if rc ≠ 0 then { d with active_transcodes := [] }
    else
      { d with active_transcodes :=
          (splitOnChar '\n' (pyStripChars out.data)).filterMap (fun line =>
            if line.isEmpty || containsSub line "pgrep".data then none
            else parseFfmpegProcessLine line) }

/-- `get_rffmpeg_status`: gated on the SSH channel being `CONNECTED`; the
`rffmpeg status` output is parsed into `rffmpeg_hosts` only on a clean,
non-empty run; every failure path returns leaving the previous value in
place. -/
def getRffmpegStatusStep (env : CycleEnv) (d : CollectedDataM) : CollectedDataM :=
  if d.status.ssh_status ≠ ConnectionStatus.connected then d
  else
    match env.rffmpegStatusRes with
    | .done rc out _ =>
      let output := pyStrip out
      if output.data.isEmpty || rc ≠ 0 then d
      else { d with rffmpeg_hosts := parseRffmpegStatus output }
    | _ => d

/-- `get_rffmpeg_logs`: gated on the SSH channel; tails the container's
rffmpeg log and the host's load-balancer log, prefixes each non-blank line
with its source tag, merges, sorts by timestamp, stores the result, and
derives the history from it.  Either tail failing just contributes no
lines. -/
def getRffmpegLogsStep (env : CycleEnv) (d : CollectedDataM) : CollectedDataM :=
  if d.status.ssh_status ≠ ConnectionStatus.connected then d
  else
    let logs1 : List String :=
      match env.rffmpegLogRes with
      | .done _ out _ =>
        let output := pyStripChars out.data
        if containsSub output "No logs".data then []
        else
          (splitOnChar '\n' output).filterMap (fun l =>
            if (pyStripChars l).isEmpty then none
            else some ("[rffmpeg] " ++ (⟨l⟩ : String)))
      | _ => []
    let logs2 : List String :=
      match env.lbLogRes with
      | .done _ out _ =>
        let output := pyStripChars out.data
        if output.isEmpty then []
        else
          (splitOnChar '\n' output).filterMap (fun l =>
            if (pyStripChars l).isEmpty then none
            else some ("[balancer] " ++ (⟨l⟩ : String)))
      | _ => []
    let allLogs := sortLogsByTimestamp (logs1 ++ logs2)
    { d with logs := allLogs, history := storedHistory env.now allLogs }

/-- `get_all_node_stats`: gated on a non-empty `rffmpeg_hosts`; clears the
shared `active_transcodes`, opens a diagnostic session for each host with a
non-empty hostname, stores the resulting node list and the merged job lists
(`asyncio.gather` runs them concurrently; the jobs are modelled in task
order, which no claim depends on).  The second component is the list of node
addresses for which a session was attempted this cycle. -/
def getAllNodeStatsStep (env : CycleEnv) (d : CollectedDataM) :
    CollectedDataM × List String :=
  if d.rffmpeg_hosts.isEmpty then (d, [])
  else
    let d1 := { d with active_transcodes := [] }
    let hostsToQuery := d.rffmpeg_hosts.filter (fun h => h.hostname ≠ "")
    if hostsToQuery.isEmpty then (d1, [])
    else
      let results := hostsToQuery.map (fun h =>
        getSingleNodeStats h.hostname env.macUser h.state
          ((pyParseInt h.weight.data).getD 1) (env.nodeRes h.hostname))
      ({ d1 with node_stats := results.map Prod.fst,
                 active_transcodes := (results.map Prod.snd).flatten },
       hostsToQuery.map (fun h => h.hostname))

/-- One `collect_all()` cycle.  The cycle is single-threaded cooperative
concurrency; the `asyncio.gather` groups touch disjoint snapshot fields, so
they are modelled by sequential composition in task order, and
`return_exceptions=True` by every step being total.  In Synology (local)
mode the SSH transport is not probed: its status is hard-wired `CONNECTED`.
In remote (Mac) mode `collect_all` runs the connectivity probes and the
rffmpeg status/log readers, but never `get_all_node_stats`.  Returns the
updated snapshot and the node-session targets attempted during the cycle. -/
def collectAllCycle (cfg : ConfigM) (env : CycleEnv) (d : CollectedDataM) :
    CollectedDataM × List String :=
  if cfg.is_synology then
    let d1 := { d with status :=
      { d.status with is_synology := true, ssh_status := .connected, ssh_error := "" } }
    let d2 := { d1 with
      status := checkLocalPaths env.localMediaRes env.localCacheRes d1.status }
    let d3 := getRffmpegStatusStep env d2
    let r4 := getAllNodeStatsStep env d3
    let d5 := getRffmpegLogsStep env r4.1
    ({ d5 with last_updated := some env.now }, r4.2)
  else
    let d1 := { d with status := (checkSshConnection cfg env.sshRes d.status).1 }
    let d2 := { d1 with status := checkNfsMounts env.mountRes d1.status }
    let d3 := getLocalFfmpegProcesses env d2
    let d4 := getRffmpegStatusStep env d3
    let d5 := getRffmpegLogsStep env d4
    ({ d5 with last_updated := some env.now }, [])

/-- Repeated collection cycles of one `DataCollector` instance. -/
def runCycles (cfg : ConfigM) (envs : List CycleEnv) (d : CollectedDataM) :
    CollectedDataM :=
  envs.foldl (fun acc e => (collectAllCycle cfg e acc).1) d

/-- The per-channel `SystemStatus` invariant claimed by the specification:
an error string is non-empty only when that channel is not `Connected`. -/
def chanOk (st : ConnectionStatus) (err : String) : Prop :=
  err ≠ "" → st ≠ ConnectionStatus.connected

/-- The invariant over all four monitored channels. -/
def statusInvariant (s : SystemStatus) : Prop :=
  chanOk s.ssh_status s.ssh_error
  ∧ chanOk s.nfs_media_status s.nfs_media_error
  ∧ chanOk s.nfs_cache_status s.nfs_cache_error
  ∧ chanOk s.jellyfin_status s.jellyfin_error

instance (s : SystemStatus) : Decidable (statusInvariant s) := by
  unfold statusInvariant chanOk
  infer_instance

/-- A remote-mode configuration used to witness the cycle-gating theorem. -/
def witnessMacConfig : ConfigM :=
  { is_synology := false, nas_ip := "192.168.1.100", nas_user := "admin",
    ssh_timeout := 5, jellyfin_api_key := "" }

/-- A cycle environment whose transport probe times out; every other call
also fails. -/
def witnessFailEnv : CycleEnv :=
  { sshRes := .timeout, mountRes := .exn "boom", localMediaRes := .timeout,
    localCacheRes := .timeout, pgrepRes := .exn "boom",
    rffmpegStatusRes := .timeout, rffmpegLogRes := .timeout,
    lbLogRes := .timeout, nodeRes := fun _ => .timeout, macUser := "mac",
    now := ⟨2024, 1, 8, 15, 30, 45⟩ }

/-! ## Theorems -/

theorem charListLe_total (a b : List Char) : charListLe a b || charListLe b a := by
  induction a generalizing b with
  | nil => simp [charListLe]
  | cons x xs ih =>
    cases b with
    | nil => simp [charListLe]
    | cons y ys =>
      simp only [charListLe]
      rcases Nat.lt_trichotomy x.toNat y.toNat with h | h | h
      · simp [h, Nat.lt_asymm h]
      · simp [h, Nat.lt_irrefl, ih ys]
      · simp [h, Nat.lt_asymm h]

theorem charListLe_trans (a b c : List Char)
    (hab : charListLe a b = true) (hbc : charListLe b c = true) :
    charListLe a c = true := by
  induction a generalizing b c with
  | nil => simp [charListLe]
  | cons x xs ih =>
    cases b with
    | nil => simp [charListLe] at hab
    | cons y ys =>
      cases c with
      | nil => simp [charListLe] at hbc
      | cons z zs =>
        simp only [charListLe] at hab hbc ⊢
        rcases Nat.lt_trichotomy x.toNat y.toNat with h1 | h1 | h1
        · rcases Nat.lt_trichotomy y.toNat z.toNat with h2 | h2 | h2
          · rw [if_pos (Nat.lt_trans h1 h2)]
          · rw [if_pos (by omega)]
          · rw [if_neg (Nat.lt_asymm h2), if_pos h2] at hbc
            exact absurd hbc (by simp)
        · rw [if_neg (by omega), if_neg (by omega)] at hab
          rcases Nat.lt_trichotomy y.toNat z.toNat with h2 | h2 | h2
          · rw [if_pos (by omega)]
          · rw [if_neg (by omega), if_neg (by omega)] at hbc
            rw [if_neg (by omega), if_neg (by omega)]
            exact ih ys zs hab hbc
          · rw [if_neg (Nat.lt_asymm h2), if_pos h2] at hbc
            exact absurd hbc (by simp)
        · rw [if_neg (Nat.lt_asymm h1), if_pos h1] at hab
          exact absurd hab (by simp)

theorem charListLe_refl (a : List Char) : charListLe a a = true := by
  induction a with
  | nil => rfl
  | cons x xs ih => simp [charListLe, ih]

theorem charListLe_nil_right (a : List Char) (h : charListLe a [] = true) : a = [] := by
  cases a with
  | nil => rfl
  | cons x xs => simp [charListLe] at h

theorem logLe_total (a b : String) : logLe a b || logLe b a :=
  charListLe_total _ _

theorem logLe_trans (a b c : String) (hab : logLe a b = true) (hbc : logLe b c = true) :
    logLe a c = true :=
  charListLe_trans _ _ _ hab hbc

theorem sortLogs_filter_key (logs : List String) (k : List Char) :
    (sortLogsByTimestamp logs).filter (fun l => extractTimestampL l.data == k)
      = logs.filter (fun l => extractTimestampL l.data == k) := by
  set p : String → Bool := fun l => extractTimestampL l.data == k with hp
  have hkey : ∀ a : String, p a = true → extractTimestampL a.data = k := by
    intro a ha
    simpa [hp] using ha
  have hpair : (logs.filter p).Pairwise (fun a b => logLe a b = true) := by
    refine List.pairwise_of_forall_mem_list ?_
    intro a ha b hb
    unfold logLe
    rw [hkey a (List.of_mem_filter ha), hkey b (List.of_mem_filter hb)]
    exact charListLe_refl k
  have hsub : List.Sublist (logs.filter p) (List.mergeSort logs logLe) :=
    List.sublist_mergeSort logLe_trans logLe_total hpair (List.filter_sublist logs)
  have hsub2 : List.Sublist ((logs.filter p).filter p)
      ((List.mergeSort logs logLe).filter p) :=
    hsub.filter p
  rw [List.filter_eq_self.mpr (fun a ha => (List.of_mem_filter ha : p a = true))] at hsub2
  have hperm : ((List.mergeSort logs logLe).filter p).Perm (logs.filter p) :=
    (List.mergeSort_perm logs logLe).filter p
  exact (hsub2.eq_of_length hperm.length_eq.symm).symm

/-- Counterexample to **C3** as stated: the single log line `"completed"` has
a completion keyword but no timestamp, so `_parse_history_from_logs` stamps
its item with `datetime.now()` — two runs of the parser on this unchanged log
list at different wall-clock times produce different results. -/
theorem C3_counterexample :
    storedHistory ⟨2024, 1, 8, 15, 30, 45⟩ ["completed"]
      ≠ storedHistory ⟨2024, 1, 8, 15, 30, 46⟩ ["completed"] := by
  decide

/-- **C3 (amended).** History derivation is deterministic — re-running it on
an unchanged log list yields the same result — provided every
completion-keyword line contains a timestamp match (otherwise the item is
stamped with the current wall-clock time, which varies between runs); and the
stored result is always the most-recent-20 suffix of the derived history
(at most 20 items, most-recent last). -/
theorem C3_history_determinism_truncation (now now' : PyDateTime) (logs : List String)
    (h : ∀ l ∈ logs, hasCompletionKeyword l.data = true → (findBareTs l.data).isSome = true) :
    storedHistory now logs = storedHistory now' logs
    ∧ (storedHistory now logs).length ≤ 20
    ∧ List.IsSuffix (storedHistory now logs) (parseHistoryFromLogs now logs) := by
  have hline : ∀ l ∈ logs, historyOfLine now l.data = historyOfLine now' l.data := by
    intro l hl
    unfold historyOfLine
    by_cases hk : hasCompletionKeyword l.data
    · rcases Option.isSome_iff_exists.mp (h l hl hk) with ⟨g, hg⟩
      simp [hk, hg]
    · simp [hk]
  have heq : parseHistoryFromLogs now logs = parseHistoryFromLogs now' logs :=
    List.filterMap_congr hline
  refine ⟨by unfold storedHistory; rw [heq], ?_, List.drop_suffix _ _⟩
  unfold storedHistory
  simp only [List.length_drop]
  omega

/-- Witness for C3 (amended) on a concrete log list whose only
completion-keyword line carries a timestamp. -/
theorem C3_history_determinism_truncation_witness :
    storedHistory ⟨2024, 1, 1, 0, 0, 0⟩
        ["[rffmpeg] 2024-01-08 15:30:45 Transcode completed: show.mkv"]
      = storedHistory ⟨2025, 6, 2, 3, 4, 5⟩
        ["[rffmpeg] 2024-01-08 15:30:45 Transcode completed: show.mkv"]
    ∧ (storedHistory ⟨2024, 1, 1, 0, 0, 0⟩
        ["[rffmpeg] 2024-01-08 15:30:45 Transcode completed: show.mkv"]).length ≤ 20
    ∧ List.IsSuffix
        (storedHistory ⟨2024, 1, 1, 0, 0, 0⟩
          ["[rffmpeg] 2024-01-08 15:30:45 Transcode completed: show.mkv"])
        (parseHistoryFromLogs ⟨2024, 1, 1, 0, 0, 0⟩
          ["[rffmpeg] 2024-01-08 15:30:45 Transcode completed: show.mkv"]) :=
  C3_history_determinism_truncation ⟨2024, 1, 1, 0, 0, 0⟩ ⟨2025, 6, 2, 3, 4, 5⟩
    ["[rffmpeg] 2024-01-08 15:30:45 Transcode completed: show.mkv"] (by decide)

/-- **C2.** `_sort_logs_by_timestamp` returns a permutation of its input that
is non-decreasing in the extracted timestamp key (the first bracketed or bare
`YYYY-MM-DD HH:MM:SS` substring, or the empty string when none matches);
key-less lines (empty key) come before all keyed lines; and the original
relative order is preserved among lines with equal keys (stable sort). -/
theorem C2_log_sort_stable (logs : List String) :
    (sortLogsByTimestamp logs).Perm logs
    ∧ (sortLogsByTimestamp logs).Pairwise
        (fun a b => charListLe (extractTimestampL a.data) (extractTimestampL b.data) = true)
    ∧ (sortLogsByTimestamp logs).Pairwise
        (fun a b => extractTimestampL b.data = [] → extractTimestampL a.data = [])
    ∧ ∀ k : List Char,
        (sortLogsByTimestamp logs).filter (fun l => extractTimestampL l.data == k)
          = logs.filter (fun l => extractTimestampL l.data == k) := by
  have hsorted : (sortLogsByTimestamp logs).Pairwise (fun a b => logLe a b = true) :=
    List.sorted_mergeSort logLe_trans logLe_total logs
  refine ⟨List.mergeSort_perm logs logLe, hsorted, ?_, sortLogs_filter_key logs⟩
  refine hsorted.imp ?_
  intro a b hab hb
  unfold logLe at hab
  rw [hb] at hab
  exact charListLe_nil_right _ hab

theorem parseStatusLines_eq_filterMap (ls : List (List Char)) :
    parseStatusLines ls = ls.filterMap recordOfLine := by
  induction ls with
  | nil => rfl
  | cons l rest ih =>
    simp only [parseStatusLines, List.filterMap_cons]
    cases recordOfLine l <;> simp [ih]

theorem recordOfLine_continuation (c : Char) (rest : List Char)
    (hc : isPySpace c = true) : recordOfLine (c :: rest) = none := by
  unfold recordOfLine
  split
  · rfl
  · simp [hc]

theorem recordOfLine_short (line : List Char)
    (hlen : (pySplitWs line).length < 5) : recordOfLine line = none := by
  unfold recordOfLine
  split
  · rfl
  · cases line with
    | nil => rfl
    | cons c rest =>
      by_cases hc : isPySpace c
      · simp [hc]
      · simp only [hc, Bool.false_eq_true, if_false]
        rw [if_neg (by omega)]

theorem recordOfLine_some_shape (line : List Char) (h : RffmpegHost)
    (hsome : recordOfLine line = some h) :
    ∃ c rest, line = c :: rest ∧ isPySpace c = false
      ∧ (pyParseInt ((pySplitWs line).getD 2 [])).isSome = true
      ∧ (pyParseInt ((pySplitWs line).getD 3 [])).isSome = true := by
  cases line with
  | nil => simp [recordOfLine, pyStripChars] at hsome
  | cons c rest =>
    refine ⟨c, rest, rfl, ?_⟩
    unfold recordOfLine at hsome
    split at hsome
    · exact absurd hsome (by simp)
    · by_cases hc : isPySpace c
      · simp [hc] at hsome
      · refine ⟨by simpa using hc, ?_⟩
        simp only [hc, Bool.false_eq_true, if_false] at hsome
        split at hsome
        · cases hp2 : pyParseInt ((pySplitWs (c :: rest)).getD 2 []) with
          | none => rw [hp2] at hsome; simp at hsome
          | some v2 =>
            cases hp3 : pyParseInt ((pySplitWs (c :: rest)).getD 3 []) with
            | none => rw [hp2, hp3] at hsome; simp at hsome
            | some v3 => simp [hp2, hp3]
        · exact absurd hsome (by simp)

theorem recordOfLine_fields (line : List Char) (h : RffmpegHost)
    (hsome : recordOfLine line = some h) :
    h.hostname = ⟨(pySplitWs line).getD 0 []⟩
    ∧ h.servername = ⟨(pySplitWs line).getD 1 []⟩
    ∧ h.state = ⟨(pySplitWs line).getD 4 []⟩ := by
  cases line with
  | nil => simp [recordOfLine, pyStripChars] at hsome
  | cons c rest =>
    unfold recordOfLine at hsome
    split at hsome
    · exact absurd hsome (by simp)
    · by_cases hc : isPySpace c
      · simp [hc] at hsome
      · simp only [hc, Bool.false_eq_true, if_false] at hsome
        split at hsome
        · cases hp2 : pyParseInt ((pySplitWs (c :: rest)).getD 2 []) with
          | none => rw [hp2] at hsome; simp at hsome
          | some v2 =>
            cases hp3 : pyParseInt ((pySplitWs (c :: rest)).getD 3 []) with
            | none => rw [hp2, hp3] at hsome; simp at hsome
            | some v3 =>
              rw [hp2, hp3] at hsome
              simp only [Option.some.injEq] at hsome
              subst hsome
              exact ⟨rfl, rfl, rfl⟩
        · exact absurd hsome (by simp)

/-- **C1.** For every fleet-status text block, the parser discards the first
(header) line and parses each remaining line independently (a rejected line
yields no record and parsing of the other lines continues unaffected); a
continuation line (first character whitespace) never produces a record; and a
line that does produce a record has a non-whitespace first character and 3rd
and 4th whitespace-separated fields that both parse as integers. -/
theorem C1_fleet_status_line_rules :
    (∀ output : String,
        parseRffmpegStatus output
          = ((splitOnChar '\n' (pyStripChars output.data)).drop 1).filterMap recordOfLine)
    ∧ (∀ (line : List Char) (c : Char) (rest : List Char),
        line = c :: rest → isPySpace c = true → recordOfLine line = none)
    ∧ (∀ (line : List Char) (h : RffmpegHost), recordOfLine line = some h →
        ∃ c rest, line = c :: rest ∧ isPySpace c = false
          ∧ (pyParseInt ((pySplitWs line).getD 2 [])).isSome = true
          ∧ (pyParseInt ((pySplitWs line).getD 3 [])).isSome = true) := by
  refine ⟨fun output => parseStatusLines_eq_filterMap _, ?_, recordOfLine_some_shape⟩
  intro line c rest hline hc
  subst hline
  exact recordOfLine_continuation c rest hc

/-- Witness for C1 at concrete inputs: the continuation line
`"   PID 99: ffmpeg ..."` produces no record, and the record line
`"10.0.0.5 10.0.0.5 1 4 active"` produces one whose validation facts hold. -/
theorem C1_fleet_status_line_rules_witness :
    recordOfLine (' ' :: "  PID 99: ffmpeg".data) = none
    ∧ ∃ c rest, "10.0.0.5 10.0.0.5 1 4 active".data = c :: rest
        ∧ isPySpace c = false
        ∧ (pyParseInt ((pySplitWs "10.0.0.5 10.0.0.5 1 4 active".data).getD 2 [])).isSome = true
        ∧ (pyParseInt ((pySplitWs "10.0.0.5 10.0.0.5 1 4 active".data).getD 3 [])).isSome = true :=
  ⟨C1_fleet_status_line_rules.2.1 _ ' ' _ rfl (by decide),
   C1_fleet_status_line_rules.2.2 _
     { hostname := "10.0.0.5", servername := "10.0.0.5", id := "1", weight := "4",
       state := "active", active := "0" }
     (by decide)⟩

/-- **C10.** The fleet-status parser additionally requires a candidate record
line to have at least 5 whitespace-separated fields: a non-continuation line
whose 3rd and 4th fields are valid integers but which has fewer than 5 fields
yields no record; and every accepted record takes its hostname, servername
and state from the 1st, 2nd and 5th fields. -/
theorem C10_fleet_status_field_count :
    (∀ (line : List Char) (c : Char) (rest : List Char), line = c :: rest →
        isPySpace c = false → (pySplitWs line).length < 5 →
        (pyParseInt ((pySplitWs line).getD 2 [])).isSome = true →
        (pyParseInt ((pySplitWs line).getD 3 [])).isSome = true →
        recordOfLine line = none)
    ∧ (∀ (line : List Char) (h : RffmpegHost), recordOfLine line = some h →
        h.hostname = ⟨(pySplitWs line).getD 0 []⟩
        ∧ h.servername = ⟨(pySplitWs line).getD 1 []⟩
        ∧ h.state = ⟨(pySplitWs line).getD 4 []⟩) :=
  ⟨fun line _ _ _ _ hlen _ _ => recordOfLine_short line hlen, recordOfLine_fields⟩

/-- Witness for C10: the 4-field line `"10.0.0.5 srv 1 4"` has integer 3rd and
4th fields yet yields no record, and the accepted 5-field record line takes
hostname/servername/state from fields 1, 2 and 5. -/
theorem C10_fleet_status_field_count_witness :
    recordOfLine "10.0.0.5 srv 1 4".data = none
    ∧ ({ hostname := "10.0.0.5", servername := "10.0.0.5", id := "1", weight := "4",
         state := "active", active := "0" : RffmpegHost }.hostname
          = ⟨(pySplitWs "10.0.0.5 10.0.0.5 1 4 active".data).getD 0 []⟩
       ∧ ({ hostname := "10.0.0.5", servername := "10.0.0.5", id := "1", weight := "4",
            state := "active", active := "0" : RffmpegHost }.servername
          = ⟨(pySplitWs "10.0.0.5 10.0.0.5 1 4 active".data).getD 1 []⟩)
       ∧ ({ hostname := "10.0.0.5", servername := "10.0.0.5", id := "1", weight := "4",
            state := "active", active := "0" : RffmpegHost }.state
          = ⟨(pySplitWs "10.0.0.5 10.0.0.5 1 4 active".data).getD 4 []⟩)) :=
  ⟨C10_fleet_status_field_count.1 _ '1' "0.0.0.5 srv 1 4".data (by decide) (by decide)
     (by decide) (by decide) (by decide),
   C10_fleet_status_field_count.2 _ _ (by decide)⟩

theorem memTotalStep_percent (content : List Char) (node : NodeStatsM) :
    (memTotalStep content node).memory_percent = node.memory_percent := by
  unfold memTotalStep
  cases searchAux matchMemsizeAt content <;> rfl

theorem memUsedStep_percent (content : List Char) (node : NodeStatsM) :
    (memUsedStep content node).memory_percent = node.memory_percent := rfl

theorem memUsedStep_nonneg (content : List Char) (node : NodeStatsM) :
    0 ≤ (memUsedStep content node).memory_used_gb := by
  unfold memUsedStep
  positivity

theorem memPercentStep_props (n : NodeStatsM) (h0 : n.memory_percent = 0)
    (hu : 0 ≤ n.memory_used_gb) :
    0 ≤ (memPercentStep n).memory_percent
    ∧ ((memPercentStep n).memory_total_gb = 0 → (memPercentStep n).memory_percent = 0)
    ∧ (0 < (memPercentStep n).memory_total_gb →
        (memPercentStep n).memory_used_gb ≤ (memPercentStep n).memory_total_gb →
        (memPercentStep n).memory_percent ≤ 100) := by
  unfold memPercentStep
  by_cases ht : n.memory_total_gb > 0
  · simp only [ht, if_true]
    refine ⟨?_, ?_, ?_⟩
    · have h1 : 0 ≤ n.memory_used_gb / n.memory_total_gb := div_nonneg hu (le_of_lt ht)
      simpa using mul_nonneg h1 (by norm_num : (0 : ℚ) ≤ 100)
    · intro h
      exact absurd h (ne_of_gt ht)
    · intro _ hle
      have h1 : n.memory_used_gb / n.memory_total_gb ≤ 1 := (div_le_one ht).mpr hle
      have h2 : n.memory_used_gb / n.memory_total_gb * 100 ≤ 1 * 100 :=
        mul_le_mul_of_nonneg_right h1 (by norm_num)
      simpa using h2
  · simp only [ht, if_false]
    exact ⟨le_of_eq h0.symm, fun _ => h0, fun htot _ => htot.elim⟩

/-- Counterexample to **C4** as stated: the memory-section text
`"hw.memsize: 1073741824\nPages active: 1000000"` (1 GB of physical memory,
1 000 000 "active" pages of 16384 bytes) yields `memory_total_gb > 0` but a
`memory_percent` of about 1526 — the code never clamps `used/total×100` to
100, so the upper bound fails. -/
theorem C4_counterexample :
    0 < (parseMemoryStats ("hw.memsize: 1073741824\nPages active: 1000000").data
          freshNodeStats).memory_total_gb
    ∧ 100 < (parseMemoryStats ("hw.memsize: 1073741824\nPages active: 1000000").data
          freshNodeStats).memory_percent := by
  have h1 : searchAux matchMemsizeAt ("hw.memsize: 1073741824\nPages active: 1000000").data
      = some 1073741824 := by decide
  have h2 : vmPageCounts ("hw.memsize: 1073741824\nPages active: 1000000").data
      = (1000000, 0, 0) := by decide
  unfold parseMemoryStats memPercentStep memUsedStep memTotalStep
  rw [h1, h2]
  norm_num [pageSize]

/-- **C4 (amended).** For every memory-section text and every node whose
`memory_percent` starts at its dataclass default 0 (as in the code, which
always passes a freshly constructed node): the resulting `memory_percent` is
non-negative; it is exactly 0 when `memory_total_gb = 0` (the division is
guarded, so no division by zero is performed); and it is at most 100 whenever
the computed used memory does not exceed the total — but not in general,
since the code does not clamp the ratio. -/
theorem C4_memory_percent_bounds (content : List Char) (node : NodeStatsM)
    (h0 : node.memory_percent = 0) :
    0 ≤ (parseMemoryStats content node).memory_percent
    ∧ ((parseMemoryStats content node).memory_total_gb = 0 →
        (parseMemoryStats content node).memory_percent = 0)
    ∧ (0 < (parseMemoryStats content node).memory_total_gb →
        (parseMemoryStats content node).memory_used_gb
          ≤ (parseMemoryStats content node).memory_total_gb →
        (parseMemoryStats content node).memory_percent ≤ 100) := by
  unfold parseMemoryStats
  refine memPercentStep_props _ ?_ (memUsedStep_nonneg _ _)
  rw [memUsedStep_percent, memTotalStep_percent]
  exact h0

/-- Witness for C4 (amended) on a concrete healthy memory section. -/
theorem C4_memory_percent_bounds_witness :
    0 ≤ (parseMemoryStats ("hw.memsize: 34359738368\nPages active: 200000").data
          freshNodeStats).memory_percent
    ∧ ((parseMemoryStats ("hw.memsize: 34359738368\nPages active: 200000").data
          freshNodeStats).memory_total_gb = 0 →
        (parseMemoryStats ("hw.memsize: 34359738368\nPages active: 200000").data
          freshNodeStats).memory_percent = 0)
    ∧ (0 < (parseMemoryStats ("hw.memsize: 34359738368\nPages active: 200000").data
          freshNodeStats).memory_total_gb →
        (parseMemoryStats ("hw.memsize: 34359738368\nPages active: 200000").data
          freshNodeStats).memory_used_gb
          ≤ (parseMemoryStats ("hw.memsize: 34359738368\nPages active: 200000").data
              freshNodeStats).memory_total_gb →
        (parseMemoryStats ("hw.memsize: 34359738368\nPages active: 200000").data
          freshNodeStats).memory_percent ≤ 100) :=
  C4_memory_percent_bounds ("hw.memsize: 34359738368\nPages active: 200000").data
    freshNodeStats rfl

theorem getLocalFfmpegProcesses_node_stats (env : CycleEnv) (d : CollectedDataM) :
    (getLocalFfmpegProcesses env d).node_stats = d.node_stats := by
  unfold getLocalFfmpegProcesses
  cases env.pgrepRes with
  | exn msg => rfl
  | done rc out err => dsimp only; split <;> rfl

theorem getRffmpegStatusStep_node_stats (env : CycleEnv) (d : CollectedDataM) :
    (getRffmpegStatusStep env d).node_stats = d.node_stats := by
  unfold getRffmpegStatusStep
  split
  · rfl
  · cases env.rffmpegStatusRes with
    | timeout => rfl
    | exn msg => rfl
    | done rc out err => dsimp only; split <;> rfl

theorem getRffmpegLogsStep_node_stats (env : CycleEnv) (d : CollectedDataM) :
    (getRffmpegLogsStep env d).node_stats = d.node_stats := by
  unfold getRffmpegLogsStep
  split <;> rfl

theorem collectAllCycle_mac (cfg : ConfigM) (env : CycleEnv) (d : CollectedDataM)
    (hmode : cfg.is_synology = false) :
    (collectAllCycle cfg env d).1.node_stats = d.node_stats
    ∧ (collectAllCycle cfg env d).2 = [] := by
  unfold collectAllCycle
  rw [hmode]
  simp only [Bool.false_eq_true, if_false]
  exact ⟨by rw [getRffmpegLogsStep_node_stats, getRffmpegStatusStep_node_stats,
      getLocalFfmpegProcesses_node_stats], trivial⟩

theorem runCycles_mac_node_stats (cfg : ConfigM) (envs : List CycleEnv)
    (d : CollectedDataM) (hmode : cfg.is_synology = false) :
    (runCycles cfg envs d).node_stats = d.node_stats := by
  induction envs generalizing d with
  | nil => rfl
  | cons e rest ih =>
    show (runCycles cfg rest (collectAllCycle cfg e d).1).node_stats = d.node_stats
    rw [ih _, (collectAllCycle_mac cfg e d hmode).1]

/-- **C5.** If the transport (SSH) probe fails in a collection cycle, then no
node-stats diagnostic sessions are attempted during that cycle and the
snapshot produced by that cycle has an empty node-stats list.  The probe only
runs in remote mode (in local/Synology mode the SSH status is hard-wired
`CONNECTED`, so the probe cannot fail), and a remote-mode `collect_all` never
reaches `get_all_node_stats` at all, so from a fresh collector — whatever the
earlier cycles observed — the node list stays empty. -/
theorem C5_transport_failure_gates_node_stats (cfg : ConfigM)
    (prior : List CycleEnv) (env : CycleEnv)
    (hmode : cfg.is_synology = false)
    (hfail : (checkSshConnection cfg env.sshRes
        (runCycles cfg prior initialCollectedData).status).2 = false) :
    (collectAllCycle cfg env (runCycles cfg prior initialCollectedData)).2 = []
    ∧ (collectAllCycle cfg env (runCycles cfg prior initialCollectedData)).1.node_stats
        = [] := by
  refine ⟨(collectAllCycle_mac cfg env _ hmode).2, ?_⟩
  rw [(collectAllCycle_mac cfg env _ hmode).1, runCycles_mac_node_stats cfg prior _ hmode]
  rfl

/-- Witness for C5: a remote-mode configuration whose transport probe times
out on the first cycle. -/
theorem C5_transport_failure_gates_node_stats_witness :
    (collectAllCycle witnessMacConfig witnessFailEnv
        (runCycles witnessMacConfig [] initialCollectedData)).2 = []
    ∧ (collectAllCycle witnessMacConfig witnessFailEnv
        (runCycles witnessMacConfig [] initialCollectedData)).1.node_stats = [] :=
  C5_transport_failure_gates_node_stats witnessMacConfig [] witnessFailEnv rfl rfl

theorem checkSsh_effects (cfg : ConfigM) (r : ProcResult) (st : SystemStatus) :
    ((checkSshConnection cfg r st).1.ssh_status = .connected →
      (checkSshConnection cfg r st).1.ssh_error = "")
    ∧ (checkSshConnection cfg r st).1.nfs_media_status = st.nfs_media_status
    ∧ (checkSshConnection cfg r st).1.nfs_media_error = st.nfs_media_error
    ∧ (checkSshConnection cfg r st).1.nfs_cache_status = st.nfs_cache_status
    ∧ (checkSshConnection cfg r st).1.nfs_cache_error = st.nfs_cache_error
    ∧ (checkSshConnection cfg r st).1.jellyfin_status = st.jellyfin_status
    ∧ (checkSshConnection cfg r st).1.jellyfin_error = st.jellyfin_error := by
  cases r with
  | timeout => exact ⟨(fun h => nomatch h), rfl, rfl, rfl, rfl, rfl, rfl⟩
  | exn msg => exact ⟨(fun h => nomatch h), rfl, rfl, rfl, rfl, rfl, rfl⟩
  | done rc out err =>
    unfold checkSshConnection
    dsimp only
    by_cases hok : (rc = 0 && containsSub out.data "ok".data) = true
    · rw [if_pos hok]
      exact ⟨fun _ => rfl, rfl, rfl, rfl, rfl, rfl, rfl⟩
    · rw [if_neg hok]
      exact ⟨(fun h => nomatch h), rfl, rfl, rfl, rfl, rfl, rfl⟩

theorem checkSsh_preserves_invariant (cfg : ConfigM) (r : ProcResult)
    (st : SystemStatus) (hinv : statusInvariant st) :
    statusInvariant (checkSshConnection cfg r st).1 := by
  obtain ⟨_, h2, h3, h4⟩ := hinv
  obtain ⟨hc, e1, e2, e3, e4, e5, e6⟩ := checkSsh_effects cfg r st
  refine ⟨fun herr hconn => herr (hc hconn), ?_, ?_, ?_⟩
  · unfold chanOk at h2 ⊢
    rw [e1, e2]
    exact h2
  · unfold chanOk at h3 ⊢
    rw [e3, e4]
    exact h3
  · unfold chanOk at h4 ⊢
    rw [e5, e6]
    exact h4

theorem checkNfs_preserves_invariant (st : SystemStatus)
    (hm : st.nfs_media_error = "") (hc : st.nfs_cache_error = "")
    (hinv : statusInvariant st) (r : CallResult) :
    statusInvariant (checkNfsMounts r st) := by
  obtain ⟨h1, _, _, h4⟩ := hinv
  cases r with
  | exn msg => exact ⟨h1, (fun _ h => nomatch h), (fun _ h => nomatch h), h4⟩
  | done rc out err =>
    unfold checkNfsMounts
    dsimp only
    split
    · split
      · exact ⟨h1, fun herr => absurd hm herr, fun herr => absurd hc herr, h4⟩
      · exact ⟨h1, (fun _ h => nomatch h), fun herr => absurd hc herr, h4⟩
    · split
      · split
        · exact ⟨h1, fun herr => absurd hm herr, fun herr => absurd hc herr, h4⟩
        · exact ⟨h1, (fun _ h => nomatch h), fun herr => absurd hc herr, h4⟩
      · split
        · exact ⟨h1, fun herr => absurd hm herr, (fun _ h => nomatch h), h4⟩
        · exact ⟨h1, (fun _ h => nomatch h), (fun _ h => nomatch h), h4⟩

theorem checkLocalPaths_preserves_invariant (st : SystemStatus)
    (hm : st.nfs_media_error = "") (hc : st.nfs_cache_error = "")
    (hinv : statusInvariant st) (r1 r2 : ProcResult) :
    statusInvariant (checkLocalPaths r1 r2 st) := by
  obtain ⟨h1, _, _, h4⟩ := hinv
  unfold checkLocalPaths
  have hmedia :
      ∀ s1 : SystemStatus, s1.ssh_status = st.ssh_status → s1.ssh_error = st.ssh_error →
        s1.jellyfin_status = st.jellyfin_status → s1.jellyfin_error = st.jellyfin_error →
        (s1.nfs_media_error ≠ "" → s1.nfs_media_status ≠ .connected) →
        s1.nfs_cache_error = st.nfs_cache_error →
        statusInvariant
          (match r2 with
           | .done _ out _ =>
             if containsSub out.data "ok".data then
               { s1 with nfs_cache_status := .connected }
             else
               { s1 with nfs_cache_status := .disconnected,
                         nfs_cache_error := "/config/cache not in container" }
           | _ => { s1 with nfs_cache_status := .error, nfs_cache_error := "Check failed" }) := by
    intro s1 q1 q2 q3 q4 q5 q6
    cases r2 with
    | timeout =>
      exact ⟨by rw [q1, q2]; exact h1, q5, (fun _ h => nomatch h), by rw [q3, q4]; exact h4⟩
    | exn msg =>
      exact ⟨by rw [q1, q2]; exact h1, q5, (fun _ h => nomatch h), by rw [q3, q4]; exact h4⟩
    | done rc out err =>
      dsimp only
      split
      · exact ⟨by rw [q1, q2]; exact h1, q5, fun herr => absurd (q6.trans hc) herr,
          by rw [q3, q4]; exact h4⟩
      · exact ⟨by rw [q1, q2]; exact h1, q5, (fun _ h => nomatch h), by rw [q3, q4]; exact h4⟩
  cases r1 with
  | timeout =>
    exact hmedia { st with nfs_media_status := .error, nfs_media_error := "Check failed" }
      rfl rfl rfl rfl (fun _ h => nomatch h) rfl
  | exn msg =>
    exact hmedia { st with nfs_media_status := .error, nfs_media_error := "Check failed" }
      rfl rfl rfl rfl (fun _ h => nomatch h) rfl
  | done rc out err =>
    dsimp only
    by_cases hok : containsSub out.data "ok".data = true
    · simp only [hok, eq_self_iff_true, if_true]
      exact hmedia { st with nfs_media_status := .connected } rfl rfl rfl rfl
        (fun herr => absurd hm herr) rfl
    · simp only [Bool.not_eq_true] at hok
      simp only [hok, Bool.false_eq_true, if_false]
      exact hmedia { st with nfs_media_status := .disconnected, nfs_media_error := "/data/media not in container" } rfl rfl rfl rfl (fun _ h => nomatch h) rfl

theorem checkJellyfin_preserves_invariant (st : SystemStatus)
    (hj : st.jellyfin_error = "") (hinv : statusInvariant st)
    (cfg : ConfigM) (r : ApiResult) :
    statusInvariant (checkJellyfinApi cfg r st) := by
  obtain ⟨h1, h2, h3, _⟩ := hinv
  unfold checkJellyfinApi
  split
  · exact ⟨h1, h2, h3, (fun _ h => nomatch h)⟩
  · cases r with
    | importErr => exact ⟨h1, h2, h3, (fun _ h => nomatch h)⟩
    | exn msg => exact ⟨h1, h2, h3, (fun _ h => nomatch h)⟩
    | resp code =>
      dsimp only
      split
      · exact ⟨h1, h2, h3, fun herr => absurd hj herr⟩
      · exact ⟨h1, h2, h3, (fun _ h => nomatch h)⟩

/-- Counterexample to **C6** as stated: start from a state satisfying the
invariant in which both mounts were previously down (status `DISCONNECTED`,
error `"Not mounted"`).  A subsequent successful `check_nfs_mounts` probe
sets both statuses to `CONNECTED` without clearing the stale error strings,
so the probe does not preserve the invariant. -/
theorem C6_counterexample :
    statusInvariant
      { initialSystemStatus with
        ssh_status := .connected,
        nfs_media_status := .disconnected, nfs_media_error := "Not mounted",
        nfs_cache_status := .disconnected, nfs_cache_error := "Not mounted" }
    ∧ ¬ statusInvariant
        (checkNfsMounts
          (.done 0 "nas:/m on /data/media type nfs\nnas:/c on /config/cache type nfs" "")
          { initialSystemStatus with
            ssh_status := .connected,
            nfs_media_status := .disconnected, nfs_media_error := "Not mounted",
            nfs_cache_status := .disconnected, nfs_cache_error := "Not mounted" }) := by
  decide

/-- **C6 (amended).** The SSH probe preserves the invariant (error non-empty
only when not `Connected`) from every invariant state.  The mount-check,
local-path-check and API-check preserve it only when the channels they touch
have empty error strings beforehand: their failure paths always pair the
error they set with a non-`Connected` status, but their success paths set
`Connected` without clearing a previously stored error string. -/
theorem C6_invariant_per_probe (st : SystemStatus) :
    (statusInvariant st → ∀ (cfg : ConfigM) (r : ProcResult),
        statusInvariant (checkSshConnection cfg r st).1)
    ∧ (st.nfs_media_error = "" → st.nfs_cache_error = "" → statusInvariant st →
        ∀ r : CallResult, statusInvariant (checkNfsMounts r st))
    ∧ (st.nfs_media_error = "" → st.nfs_cache_error = "" → statusInvariant st →
        ∀ r1 r2 : ProcResult, statusInvariant (checkLocalPaths r1 r2 st))
    ∧ (st.jellyfin_error = "" → statusInvariant st →
        ∀ (cfg : ConfigM) (r : ApiResult), statusInvariant (checkJellyfinApi cfg r st)) :=
  ⟨fun hinv cfg r => checkSsh_preserves_invariant cfg r st hinv,
   fun hm hc hinv r => checkNfs_preserves_invariant st hm hc hinv r,
   fun hm hc hinv r1 r2 => checkLocalPaths_preserves_invariant st hm hc hinv r1 r2,
   fun hj hinv cfg r => checkJellyfin_preserves_invariant st hj hinv cfg r⟩

/-- Witness for C6 (amended) at the fresh `SystemStatus` (all errors empty)
for each probe. -/
theorem C6_invariant_per_probe_witness :
    statusInvariant (checkSshConnection witnessMacConfig .timeout initialSystemStatus).1
    ∧ statusInvariant (checkNfsMounts (.exn "boom") initialSystemStatus)
    ∧ statusInvariant (checkLocalPaths .timeout .timeout initialSystemStatus)
    ∧ statusInvariant (checkJellyfinApi witnessMacConfig .importErr initialSystemStatus) :=
  ⟨(C6_invariant_per_probe initialSystemStatus).1 (by decide) witnessMacConfig .timeout,
   (C6_invariant_per_probe initialSystemStatus).2.1 rfl rfl (by decide) (.exn "boom"),
   (C6_invariant_per_probe initialSystemStatus).2.2.1 rfl rfl (by decide) .timeout .timeout,
   (C6_invariant_per_probe initialSystemStatus).2.2.2 rfl (by decide) witnessMacConfig
     .importErr⟩

/-- **C7.** A transport-probe timeout yields `DISCONNECTED` (not `ERROR`)
with the exact diagnostic `"Connection timeout"`; any other failure of the
probe yields `ERROR` with a categorised message — the auth-failure, refused
or unreachable texts, or a generic message truncated to at most 100
characters (the exception path likewise). -/
theorem C7_ssh_timeout_classification (cfg : ConfigM) (st : SystemStatus) :
    ((checkSshConnection cfg .timeout st).1.ssh_status = .disconnected
      ∧ (checkSshConnection cfg .timeout st).1.ssh_error = "Connection timeout")
    ∧ (∀ (rc : Int) (out err : String),
        ¬ (rc = 0 ∧ containsSub out.data "ok".data = true) →
        (checkSshConnection cfg (.done rc out err) st).1.ssh_status = .error
        ∧ ((checkSshConnection cfg (.done rc out err) st).1.ssh_error
              = "Auth failed for " ++ cfg.nas_user ++ "@" ++ cfg.nas_ip
            ∨ (checkSshConnection cfg (.done rc out err) st).1.ssh_error
              = "SSH refused at " ++ cfg.nas_ip ++ ":22"
            ∨ (checkSshConnection cfg (.done rc out err) st).1.ssh_error
              = "Cannot reach " ++ cfg.nas_ip
            ∨ (checkSshConnection cfg (.done rc out err) st).1.ssh_error.length ≤ 100))
    ∧ (∀ msg : String,
        (checkSshConnection cfg (.exn msg) st).1.ssh_status = .error
        ∧ (checkSshConnection cfg (.exn msg) st).1.ssh_error.length ≤ 100) := by
  refine ⟨⟨rfl, rfl⟩, ?_, ?_⟩
  · intro rc out err hfail
    have hok : ¬ ((rc = 0 && containsSub out.data "ok".data) = true) := by
      simp only [Bool.and_eq_true, decide_eq_true_eq]
      exact fun h => hfail ⟨h.1, h.2⟩
    unfold checkSshConnection
    dsimp only
    rw [if_neg hok]
    refine ⟨rfl, ?_⟩
    split
    · exact Or.inl rfl
    · split
      · exact Or.inr (Or.inl rfl)
      · split
        · exact Or.inr (Or.inr (Or.inl rfl))
        · refine Or.inr (Or.inr (Or.inr ?_))
          show ((pyStripChars err.data).take 100).length ≤ 100
          exact List.length_take_le 100 _
  · intro msg
    refine ⟨rfl, ?_⟩
    show (msg.data.take 100).length ≤ 100
    exact List.length_take_le 100 _

/-- Witness for C7 at a concrete failed probe: stderr reporting
`Permission denied` with exit code 255. -/
theorem C7_ssh_timeout_classification_witness :
    (checkSshConnection witnessMacConfig (.done 255 "" "Permission denied") initialSystemStatus).1.ssh_status
      = .error
    ∧ ((checkSshConnection witnessMacConfig (.done 255 "" "Permission denied") initialSystemStatus).1.ssh_error
          = "Auth failed for " ++ witnessMacConfig.nas_user ++ "@" ++ witnessMacConfig.nas_ip
        ∨ (checkSshConnection witnessMacConfig (.done 255 "" "Permission denied") initialSystemStatus).1.ssh_error
          = "SSH refused at " ++ witnessMacConfig.nas_ip ++ ":22"
        ∨ (checkSshConnection witnessMacConfig (.done 255 "" "Permission denied") initialSystemStatus).1.ssh_error
          = "Cannot reach " ++ witnessMacConfig.nas_ip
        ∨ (checkSshConnection witnessMacConfig (.done 255 "" "Permission denied") initialSystemStatus).1.ssh_error.length
          ≤ 100) :=
  (C7_ssh_timeout_classification witnessMacConfig initialSystemStatus).2.1 255 ""
    "Permission denied" (by decide)

theorem parseCpuSection_preserves (content : List Char) (node : NodeStatsM) :
    (parseCpuSection content node).is_online = node.is_online
    ∧ (parseCpuSection content node).error = node.error := by
  unfold parseCpuSection
  cases findCpuUserSys content <;> exact ⟨rfl, rfl⟩

theorem parseMemoryStats_preserves (content : List Char) (node : NodeStatsM) :
    (parseMemoryStats content node).is_online = node.is_online
    ∧ (parseMemoryStats content node).error = node.error := by
  unfold parseMemoryStats
  have h1 : (memTotalStep content node).is_online = node.is_online
      ∧ (memTotalStep content node).error = node.error := by
    unfold memTotalStep
    cases searchAux matchMemsizeAt content <;> exact ⟨rfl, rfl⟩
  have h2 : ∀ m : NodeStatsM,
      (memPercentStep m).is_online = m.is_online ∧ (memPercentStep m).error = m.error := by
    intro m
    unfold memPercentStep
    split <;> exact ⟨rfl, rfl⟩
  exact ⟨(h2 _).1.trans h1.1, (h2 _).2.trans h1.2⟩

theorem macStatsLoop_preserves (ip : String) (secs : List (List Char))
    (acc : NodeStatsM × List TranscodeJobM) :
    (macStatsLoop ip secs acc).1.is_online = acc.1.is_online
    ∧ (macStatsLoop ip secs acc).1.error = acc.1.error := by
  induction secs generalizing acc with
  | nil => exact ⟨rfl, rfl⟩
  | cons s rest ih =>
    unfold macStatsLoop
    dsimp only
    have step : ∀ acc2 : NodeStatsM × List TranscodeJobM,
        acc2.1.is_online = acc.1.is_online → acc2.1.error = acc.1.error →
        (macStatsLoop ip rest acc2).1.is_online = acc.1.is_online
        ∧ (macStatsLoop ip rest acc2).1.error = acc.1.error := by
      intro acc2 e1 e2
      exact ⟨(ih acc2).1.trans e1, (ih acc2).2.trans e2⟩
    refine step _ ?_ ?_
    · split
      · split
        · exact (parseCpuSection_preserves _ _).1
        · rfl
      · split
        · split
          · exact (parseMemoryStats_preserves _ _).1
          · rfl
        · split
          · split
            · rfl
            · rfl
          · rfl
    · split
      · split
        · exact (parseCpuSection_preserves _ _).2
        · rfl
      · split
        · split
          · exact (parseMemoryStats_preserves _ _).2
          · rfl
        · split
          · split
            · rfl
            · rfl
          · rfl

theorem parseMacStats_preserves (output : List Char) (node : NodeStatsM) :
    (parseMacStats output node).1.is_online = node.is_online
    ∧ (parseMacStats output node).1.error = node.error :=
  macStatsLoop_preserves _ _ _

/-- **C8.** The node is classified online iff the session completed and its
standard output contains the `STATS_CPU_START` marker, independent of the
process exit code (the result does not depend on `rc` at all); a node that is
not online carries a best-effort categorised error (key rejection, refused,
unreachable, timeout, the no-data fallback, or a message truncated to at most
50 characters); and the model of the operation is a total function — timeouts
and exceptions map to offline nodes rather than propagating. -/
theorem C8_node_liveness_marker (ip mac_user state : String) (weight : Int) :
    (∀ (rc : Int) (out err : String),
        ((getSingleNodeStats ip mac_user state weight (.done rc out err)).1.is_online = true
          ↔ containsSub out.data "STATS_CPU_START".data = true)
        ∧ getSingleNodeStats ip mac_user state weight (.done rc out err)
            = getSingleNodeStats ip mac_user state weight (.done 0 out err))
    ∧ (∀ res : ProcResult,
        (getSingleNodeStats ip mac_user state weight res).1.is_online = false →
        ((getSingleNodeStats ip mac_user state weight res).1.error = "SSH key rejected"
          ∨ (getSingleNodeStats ip mac_user state weight res).1.error = "SSH refused"
          ∨ (getSingleNodeStats ip mac_user state weight res).1.error = "Host unreachable"
          ∨ (getSingleNodeStats ip mac_user state weight res).1.error = "Timeout"
          ∨ (getSingleNodeStats ip mac_user state weight res).1.error = "No stats data"
          ∨ (getSingleNodeStats ip mac_user state weight res).1.error.length ≤ 50))
    ∧ (getSingleNodeStats ip mac_user state weight .timeout).1.is_online = false
    ∧ (∀ msg : String,
        (getSingleNodeStats ip mac_user state weight (.exn msg)).1.is_online = false) := by
  refine ⟨?_, ?_, rfl, fun _ => rfl⟩
  · intro rc out err
    refine ⟨?_, rfl⟩
    unfold getSingleNodeStats
    dsimp only
    by_cases hm : containsSub out.data "STATS_CPU_START".data = true
    · rw [if_pos hm]
      exact ⟨fun _ => hm, fun _ => (parseMacStats_preserves _ _).1⟩
    · rw [if_neg hm]
      exact ⟨(fun h => nomatch h), fun h => absurd h hm⟩
  · intro res hoff
    cases res with
    | timeout => exact Or.inr (Or.inr (Or.inr (Or.inl rfl)))
    | exn msg =>
      refine Or.inr (Or.inr (Or.inr (Or.inr (Or.inr ?_))))
      show (msg.data.take 50).length ≤ 50
      exact List.length_take_le 50 _
    | done rc out err =>
      revert hoff
      unfold getSingleNodeStats
      dsimp only
      by_cases hm : containsSub out.data "STATS_CPU_START".data = true
      · rw [if_pos hm]
        intro hoff
        have := (parseMacStats_preserves out.data
          { freshNodeStats with hostname := mac_user ++ "@" ++ ip, ip := ip,
                                state := state, weight := weight, is_online := true }).1
        rw [hoff] at this
        exact nomatch this
      · rw [if_neg hm]
        intro _
        split
        · exact Or.inl rfl
        · split
          · exact Or.inr (Or.inl rfl)
          · split
            · exact Or.inr (Or.inr (Or.inl rfl))
            · split
              · refine Or.inr (Or.inr (Or.inr (Or.inr (Or.inr ?_))))
                show ((pyStripChars err.data).take 40).length ≤ 50
                exact le_trans (List.length_take_le 40 _) (by omega)
              · exact Or.inr (Or.inr (Or.inr (Or.inr (Or.inl rfl))))

/-- Witness for C8: a session whose stdout lacks the marker despite exit
code 0, and a timed-out session. -/
theorem C8_node_liveness_marker_witness :
    ((getSingleNodeStats "10.0.0.5" "mac" "active" 4 (.done 0 "no marker here" "")).1.is_online = true
      ↔ containsSub "no marker here".data "STATS_CPU_START".data = true)
    ∧ ((getSingleNodeStats "10.0.0.5" "mac" "active" 4 .timeout).1.error = "SSH key rejected"
        ∨ (getSingleNodeStats "10.0.0.5" "mac" "active" 4 .timeout).1.error = "SSH refused"
        ∨ (getSingleNodeStats "10.0.0.5" "mac" "active" 4 .timeout).1.error = "Host unreachable"
        ∨ (getSingleNodeStats "10.0.0.5" "mac" "active" 4 .timeout).1.error = "Timeout"
        ∨ (getSingleNodeStats "10.0.0.5" "mac" "active" 4 .timeout).1.error = "No stats data"
        ∨ (getSingleNodeStats "10.0.0.5" "mac" "active" 4 .timeout).1.error.length ≤ 50) :=
  ⟨((C8_node_liveness_marker "10.0.0.5" "mac" "active" 4).1 0 "no marker here" "").1,
   (C8_node_liveness_marker "10.0.0.5" "mac" "active" 4).2.1 .timeout rfl⟩

/-- Counterexample to **C9** as stated: a command line may contain all four
required fragments and also `h264_videotoolbox`, which the codec lexicon
checks first, so the parsed output codec is `"H.264 (HW)"`, not
`"HEVC (HW)"`. -/
theorem C9_counterexample :
    (strContains "ffmpeg -i /media/show.mkv -c:v h264_videotoolbox hevc_videotoolbox -maxrate 9000000 -vf scale=1280:720" "-i /media/show.mkv"
      && strContains "ffmpeg -i /media/show.mkv -c:v h264_videotoolbox hevc_videotoolbox -maxrate 9000000 -vf scale=1280:720" "hevc_videotoolbox"
      && strContains "ffmpeg -i /media/show.mkv -c:v h264_videotoolbox hevc_videotoolbox -maxrate 9000000 -vf scale=1280:720" "-maxrate 9000000"
      && strContains "ffmpeg -i /media/show.mkv -c:v h264_videotoolbox hevc_videotoolbox -maxrate 9000000 -vf scale=1280:720" "scale=1280:720") = true
    ∧ (parseFfmpegCommand "ffmpeg -i /media/show.mkv -c:v h264_videotoolbox hevc_videotoolbox -maxrate 9000000 -vf scale=1280:720" "10.0.0.5" 1 0).output_codec
        ≠ "HEVC (HW)" := by
  decide

/-- **C9 (amended).** For any ffmpeg command line whose first input-file
match is `/media/show.mkv`, which contains `hevc_videotoolbox` but not
`h264_videotoolbox`, whose first `-maxrate` match is 9000000 and whose first
`scale=` filter match is `1280:720`, the parser returns filename
`"show.mkv"`, output codec `"HEVC (HW)"`, input resolution `"1080p"` (the
`>8000000` maxrate tier), output resolution `"1280x720"` and bitrate
`"9000k"`. -/
theorem C9_ffmpeg_command_parse (cmd ip : String) (pid : Int) (cpu : ℚ)
    (h1 : findInputFile cmd.data = some "/media/show.mkv".data)
    (h2 : containsSub cmd.data "h264_videotoolbox".data = false)
    (h3 : containsSub cmd.data "hevc_videotoolbox".data = true)
    (h4 : findMaxrate cmd.data = some 9000000)
    (h5 : findScale cmd.data = some ("1280".data, "720".data)) :
    (parseFfmpegCommand cmd ip pid cpu).filename = "show.mkv"
    ∧ (parseFfmpegCommand cmd ip pid cpu).output_codec = "HEVC (HW)"
    ∧ (parseFfmpegCommand cmd ip pid cpu).input_resolution = "1080p"
    ∧ (parseFfmpegCommand cmd ip pid cpu).output_resolution = "1280x720"
    ∧ (parseFfmpegCommand cmd ip pid cpu).bitrate = "9000k" := by
  unfold parseFfmpegCommand
  dsimp only
  rw [h1, h2, h3, h4, h5]
  exact ⟨rfl, rfl, rfl, rfl, rfl⟩

/-- Witness for C9 (amended) on the specification's example command. -/
theorem C9_ffmpeg_command_parse_witness :
    (parseFfmpegCommand "/usr/lib/jellyfin-ffmpeg/ffmpeg -i file:/media/show.mkv -c:v hevc_videotoolbox -maxrate 9000000 -vf scale=1280:720 out.mkv" "10.0.0.5" 11 0).filename
        = "show.mkv"
    ∧ (parseFfmpegCommand "/usr/lib/jellyfin-ffmpeg/ffmpeg -i file:/media/show.mkv -c:v hevc_videotoolbox -maxrate 9000000 -vf scale=1280:720 out.mkv" "10.0.0.5" 11 0).output_codec
        = "HEVC (HW)"
    ∧ (parseFfmpegCommand "/usr/lib/jellyfin-ffmpeg/ffmpeg -i file:/media/show.mkv -c:v hevc_videotoolbox -maxrate 9000000 -vf scale=1280:720 out.mkv" "10.0.0.5" 11 0).input_resolution
        = "1080p"
    ∧ (parseFfmpegCommand "/usr/lib/jellyfin-ffmpeg/ffmpeg -i file:/media/show.mkv -c:v hevc_videotoolbox -maxrate 9000000 -vf scale=1280:720 out.mkv" "10.0.0.5" 11 0).output_resolution
        = "1280x720"
    ∧ (parseFfmpegCommand "/usr/lib/jellyfin-ffmpeg/ffmpeg -i file:/media/show.mkv -c:v hevc_videotoolbox -maxrate 9000000 -vf scale=1280:720 out.mkv" "10.0.0.5" 11 0).bitrate
        = "9000k" :=
  C9_ffmpeg_command_parse
    "/usr/lib/jellyfin-ffmpeg/ffmpeg -i file:/media/show.mkv -c:v hevc_videotoolbox -maxrate 9000000 -vf scale=1280:720 out.mkv"
    "10.0.0.5" 11 0 (by decide) (by decide) (by decide) (by decide) (by decide)

end Transcodarr
